import Mathlib

/-!
# Title Extractor: capture listener and browsing panel

A shallow embedding of `src/background.js` and `src/popup.js`.

* JavaScript strings are Lean `String`s; `startsWith` and `includes` are
  the prefix and substring tests on their character lists. On well-formed
  text these agree with the tests on UTF-16 code units, and every literal
  the scripts compare against is ASCII.
* The extension's storage area holds one key, `savedTitles`; `Store` keeps
  its value together with the log of the `storage.local.set` calls.
* Entries held by the popup are heap objects: `Obj` pairs an entry with
  its address, and `===` on objects compares addresses.
* `new Date().toISOString()` is the `now` argument of `saveTitle`.
* `handleSearch` takes the lower-casing function as its `lower` argument; the
  script passes `String.prototype.toLowerCase`, which `toLowerCase` models with
  the case data of Unicode 14.
-/

namespace TitleExtractor

/-! ## Strings -/

/-- JavaScript `s.startsWith(p)`. -/
def startsWith (s p : String) : Bool :=
  p.data.isPrefixOf s.data

/-- Substring test on character lists: `p` occurs in `s` at some offset. -/
def includesChars (p : List Char) : List Char → Bool
  | [] => p.isEmpty
  | c :: s => p.isPrefixOf (c :: s) || includesChars p s

/-- JavaScript `s.includes(p)`. -/
def includes (s p : String) : Bool :=
  includesChars p.data s.data

/-- JavaScript truthiness of a string: non-empty. -/
def truthy (s : String) : Bool :=
  s != ""

/-- JavaScript truthiness of a string-valued property that may be `undefined`. -/
def truthy? : Option String → Bool
  | none => false
  | some s => truthy s

/-! ## Lower-casing

`String.prototype.toLowerCase` is the default lower-case conversion of the Unicode
standard: every character is replaced by its lower-case mapping, except that
capital sigma becomes final sigma or small sigma according to its context. -/

/-- The simple lower-case mappings of Unicode 14, in runs `(first, last, step, image)`:
the code points `first`, `first + step`, .. up to `last` map to `image`, `image + step`, .. -/
def lowerRuns : List (Nat × Nat × Nat × Nat) :=
  [(0x41, 0x5A, 1, 0x61), (0xC0, 0xD6, 1, 0xE0), (0xD8, 0xDE, 1, 0xF8),
   (0x100, 0x12E, 2, 0x101), (0x132, 0x136, 2, 0x133), (0x139, 0x147, 2, 0x13A),
   (0x14A, 0x176, 2, 0x14B), (0x178, 0x178, 1, 0xFF), (0x179, 0x17D, 2, 0x17A),
   (0x181, 0x181, 1, 0x253), (0x182, 0x184, 2, 0x183), (0x186, 0x186, 1, 0x254),
   (0x187, 0x187, 1, 0x188), (0x189, 0x18A, 1, 0x256), (0x18B, 0x18B, 1, 0x18C),
   (0x18E, 0x18E, 1, 0x1DD), (0x18F, 0x18F, 1, 0x259), (0x190, 0x190, 1, 0x25B),
   (0x191, 0x191, 1, 0x192), (0x193, 0x193, 1, 0x260), (0x194, 0x194, 1, 0x263),
   (0x196, 0x196, 1, 0x269), (0x197, 0x197, 1, 0x268), (0x198, 0x198, 1, 0x199),
   (0x19C, 0x19C, 1, 0x26F), (0x19D, 0x19D, 1, 0x272), (0x19F, 0x19F, 1, 0x275),
   (0x1A0, 0x1A4, 2, 0x1A1), (0x1A6, 0x1A6, 1, 0x280), (0x1A7, 0x1A7, 1, 0x1A8),
   (0x1A9, 0x1A9, 1, 0x283), (0x1AC, 0x1AC, 1, 0x1AD), (0x1AE, 0x1AE, 1, 0x288),
   (0x1AF, 0x1AF, 1, 0x1B0), (0x1B1, 0x1B2, 1, 0x28A), (0x1B3, 0x1B5, 2, 0x1B4),
   (0x1B7, 0x1B7, 1, 0x292), (0x1B8, 0x1B8, 1, 0x1B9), (0x1BC, 0x1BC, 1, 0x1BD),
   (0x1C4, 0x1C4, 1, 0x1C6), (0x1C5, 0x1C5, 1, 0x1C6), (0x1C7, 0x1C7, 1, 0x1C9),
   (0x1C8, 0x1C8, 1, 0x1C9), (0x1CA, 0x1CA, 1, 0x1CC), (0x1CB, 0x1DB, 2, 0x1CC),
   (0x1DE, 0x1EE, 2, 0x1DF), (0x1F1, 0x1F1, 1, 0x1F3), (0x1F2, 0x1F4, 2, 0x1F3),
   (0x1F6, 0x1F6, 1, 0x195), (0x1F7, 0x1F7, 1, 0x1BF), (0x1F8, 0x21E, 2, 0x1F9),
   (0x220, 0x220, 1, 0x19E), (0x222, 0x232, 2, 0x223), (0x23A, 0x23A, 1, 0x2C65),
   (0x23B, 0x23B, 1, 0x23C), (0x23D, 0x23D, 1, 0x19A), (0x23E, 0x23E, 1, 0x2C66),
   (0x241, 0x241, 1, 0x242), (0x243, 0x243, 1, 0x180), (0x244, 0x244, 1, 0x289),
   (0x245, 0x245, 1, 0x28C), (0x246, 0x24E, 2, 0x247), (0x370, 0x372, 2, 0x371),
   (0x376, 0x376, 1, 0x377), (0x37F, 0x37F, 1, 0x3F3), (0x386, 0x386, 1, 0x3AC),
   (0x388, 0x38A, 1, 0x3AD), (0x38C, 0x38C, 1, 0x3CC), (0x38E, 0x38F, 1, 0x3CD),
   (0x391, 0x3A1, 1, 0x3B1), (0x3A3, 0x3AB, 1, 0x3C3), (0x3CF, 0x3CF, 1, 0x3D7),
   (0x3D8, 0x3EE, 2, 0x3D9), (0x3F4, 0x3F4, 1, 0x3B8), (0x3F7, 0x3F7, 1, 0x3F8),
   (0x3F9, 0x3F9, 1, 0x3F2), (0x3FA, 0x3FA, 1, 0x3FB), (0x3FD, 0x3FF, 1, 0x37B),
   (0x400, 0x40F, 1, 0x450), (0x410, 0x42F, 1, 0x430), (0x460, 0x480, 2, 0x461),
   (0x48A, 0x4BE, 2, 0x48B), (0x4C0, 0x4C0, 1, 0x4CF), (0x4C1, 0x4CD, 2, 0x4C2),
   (0x4D0, 0x52E, 2, 0x4D1), (0x531, 0x556, 1, 0x561), (0x10A0, 0x10C5, 1, 0x2D00),
   (0x10C7, 0x10C7, 1, 0x2D27), (0x10CD, 0x10CD, 1, 0x2D2D), (0x13A0, 0x13EF, 1, 0xAB70),
   (0x13F0, 0x13F5, 1, 0x13F8), (0x1C90, 0x1CBA, 1, 0x10D0), (0x1CBD, 0x1CBF, 1, 0x10FD),
   (0x1E00, 0x1E94, 2, 0x1E01), (0x1E9E, 0x1E9E, 1, 0xDF), (0x1EA0, 0x1EFE, 2, 0x1EA1),
   (0x1F08, 0x1F0F, 1, 0x1F00), (0x1F18, 0x1F1D, 1, 0x1F10), (0x1F28, 0x1F2F, 1, 0x1F20),
   (0x1F38, 0x1F3F, 1, 0x1F30), (0x1F48, 0x1F4D, 1, 0x1F40), (0x1F59, 0x1F5F, 2, 0x1F51),
   (0x1F68, 0x1F6F, 1, 0x1F60), (0x1F88, 0x1F8F, 1, 0x1F80), (0x1F98, 0x1F9F, 1, 0x1F90),
   (0x1FA8, 0x1FAF, 1, 0x1FA0), (0x1FB8, 0x1FB9, 1, 0x1FB0), (0x1FBA, 0x1FBB, 1, 0x1F70),
   (0x1FBC, 0x1FBC, 1, 0x1FB3), (0x1FC8, 0x1FCB, 1, 0x1F72), (0x1FCC, 0x1FCC, 1, 0x1FC3),
   (0x1FD8, 0x1FD9, 1, 0x1FD0), (0x1FDA, 0x1FDB, 1, 0x1F76), (0x1FE8, 0x1FE9, 1, 0x1FE0),
   (0x1FEA, 0x1FEB, 1, 0x1F7A), (0x1FEC, 0x1FEC, 1, 0x1FE5), (0x1FF8, 0x1FF9, 1, 0x1F78),
   (0x1FFA, 0x1FFB, 1, 0x1F7C), (0x1FFC, 0x1FFC, 1, 0x1FF3), (0x2126, 0x2126, 1, 0x3C9),
   (0x212A, 0x212A, 1, 0x6B), (0x212B, 0x212B, 1, 0xE5), (0x2132, 0x2132, 1, 0x214E),
   (0x2160, 0x216F, 1, 0x2170), (0x2183, 0x2183, 1, 0x2184), (0x24B6, 0x24CF, 1, 0x24D0),
   (0x2C00, 0x2C2F, 1, 0x2C30), (0x2C60, 0x2C60, 1, 0x2C61), (0x2C62, 0x2C62, 1, 0x26B),
   (0x2C63, 0x2C63, 1, 0x1D7D), (0x2C64, 0x2C64, 1, 0x27D), (0x2C67, 0x2C6B, 2, 0x2C68),
   (0x2C6D, 0x2C6D, 1, 0x251), (0x2C6E, 0x2C6E, 1, 0x271), (0x2C6F, 0x2C6F, 1, 0x250),
   (0x2C70, 0x2C70, 1, 0x252), (0x2C72, 0x2C72, 1, 0x2C73), (0x2C75, 0x2C75, 1, 0x2C76),
   (0x2C7E, 0x2C7F, 1, 0x23F), (0x2C80, 0x2CE2, 2, 0x2C81), (0x2CEB, 0x2CED, 2, 0x2CEC),
   (0x2CF2, 0x2CF2, 1, 0x2CF3), (0xA640, 0xA66C, 2, 0xA641), (0xA680, 0xA69A, 2, 0xA681),
   (0xA722, 0xA72E, 2, 0xA723), (0xA732, 0xA76E, 2, 0xA733), (0xA779, 0xA77B, 2, 0xA77A),
   (0xA77D, 0xA77D, 1, 0x1D79), (0xA77E, 0xA786, 2, 0xA77F), (0xA78B, 0xA78B, 1, 0xA78C),
   (0xA78D, 0xA78D, 1, 0x265), (0xA790, 0xA792, 2, 0xA791), (0xA796, 0xA7A8, 2, 0xA797),
   (0xA7AA, 0xA7AA, 1, 0x266), (0xA7AB, 0xA7AB, 1, 0x25C), (0xA7AC, 0xA7AC, 1, 0x261),
   (0xA7AD, 0xA7AD, 1, 0x26C), (0xA7AE, 0xA7AE, 1, 0x26A), (0xA7B0, 0xA7B0, 1, 0x29E),
   (0xA7B1, 0xA7B1, 1, 0x287), (0xA7B2, 0xA7B2, 1, 0x29D), (0xA7B3, 0xA7B3, 1, 0xAB53),
   (0xA7B4, 0xA7C2, 2, 0xA7B5), (0xA7C4, 0xA7C4, 1, 0xA794), (0xA7C5, 0xA7C5, 1, 0x282),
   (0xA7C6, 0xA7C6, 1, 0x1D8E), (0xA7C7, 0xA7C9, 2, 0xA7C8), (0xA7D0, 0xA7D0, 1, 0xA7D1),
   (0xA7D6, 0xA7D8, 2, 0xA7D7), (0xA7F5, 0xA7F5, 1, 0xA7F6), (0xFF21, 0xFF3A, 1, 0xFF41),
   (0x10400, 0x10427, 1, 0x10428), (0x104B0, 0x104D3, 1, 0x104D8), (0x10570, 0x1057A, 1, 0x10597),
   (0x1057C, 0x1058A, 1, 0x105A3), (0x1058C, 0x10592, 1, 0x105B3), (0x10594, 0x10595, 1, 0x105BB),
   (0x10C80, 0x10CB2, 1, 0x10CC0), (0x118A0, 0x118BF, 1, 0x118C0), (0x16E40, 0x16E5F, 1, 0x16E60),
   (0x1E900, 0x1E921, 1, 0x1E922)]

/-- The code points with the property Case_Ignorable, as inclusive ranges. -/
def caseIgnorableRanges : List (Nat × Nat) :=
  [(0x27, 0x27), (0x2E, 0x2E), (0x3A, 0x3A), (0x5E, 0x5E), (0x60, 0x60),
   (0xA8, 0xA8), (0xAD, 0xAD), (0xAF, 0xAF), (0xB4, 0xB4), (0xB7, 0xB8),
   (0x2B0, 0x36F), (0x374, 0x375), (0x37A, 0x37A), (0x384, 0x385), (0x387, 0x387),
   (0x483, 0x489), (0x559, 0x559), (0x55F, 0x55F), (0x591, 0x5BD), (0x5BF, 0x5BF),
   (0x5C1, 0x5C2), (0x5C4, 0x5C5), (0x5C7, 0x5C7), (0x5F4, 0x5F4), (0x600, 0x605),
   (0x610, 0x61A), (0x61C, 0x61C), (0x640, 0x640), (0x64B, 0x65F), (0x670, 0x670),
   (0x6D6, 0x6DD), (0x6DF, 0x6E8), (0x6EA, 0x6ED), (0x70F, 0x70F), (0x711, 0x711),
   (0x730, 0x74A), (0x7A6, 0x7B0), (0x7EB, 0x7F5), (0x7FA, 0x7FA), (0x7FD, 0x7FD),
   (0x816, 0x82D), (0x859, 0x85B), (0x888, 0x888), (0x890, 0x891), (0x898, 0x89F),
   (0x8C9, 0x902), (0x93A, 0x93A), (0x93C, 0x93C), (0x941, 0x948), (0x94D, 0x94D),
   (0x951, 0x957), (0x962, 0x963), (0x971, 0x971), (0x981, 0x981), (0x9BC, 0x9BC),
   (0x9C1, 0x9C4), (0x9CD, 0x9CD), (0x9E2, 0x9E3), (0x9FE, 0x9FE), (0xA01, 0xA02),
   (0xA3C, 0xA3C), (0xA41, 0xA42), (0xA47, 0xA48), (0xA4B, 0xA4D), (0xA51, 0xA51),
   (0xA70, 0xA71), (0xA75, 0xA75), (0xA81, 0xA82), (0xABC, 0xABC), (0xAC1, 0xAC5),
   (0xAC7, 0xAC8), (0xACD, 0xACD), (0xAE2, 0xAE3), (0xAFA, 0xAFF), (0xB01, 0xB01),
   (0xB3C, 0xB3C), (0xB3F, 0xB3F), (0xB41, 0xB44), (0xB4D, 0xB4D), (0xB55, 0xB56),
   (0xB62, 0xB63), (0xB82, 0xB82), (0xBC0, 0xBC0), (0xBCD, 0xBCD), (0xC00, 0xC00),
   (0xC04, 0xC04), (0xC3C, 0xC3C), (0xC3E, 0xC40), (0xC46, 0xC48), (0xC4A, 0xC4D),
   (0xC55, 0xC56), (0xC62, 0xC63), (0xC81, 0xC81), (0xCBC, 0xCBC), (0xCBF, 0xCBF),
   (0xCC6, 0xCC6), (0xCCC, 0xCCD), (0xCE2, 0xCE3), (0xD00, 0xD01), (0xD3B, 0xD3C),
   (0xD41, 0xD44), (0xD4D, 0xD4D), (0xD62, 0xD63), (0xD81, 0xD81), (0xDCA, 0xDCA),
   (0xDD2, 0xDD4), (0xDD6, 0xDD6), (0xE31, 0xE31), (0xE34, 0xE3A), (0xE46, 0xE4E),
   (0xEB1, 0xEB1), (0xEB4, 0xEBC), (0xEC6, 0xEC6), (0xEC8, 0xECD), (0xF18, 0xF19),
   (0xF35, 0xF35), (0xF37, 0xF37), (0xF39, 0xF39), (0xF71, 0xF7E), (0xF80, 0xF84),
   (0xF86, 0xF87), (0xF8D, 0xF97), (0xF99, 0xFBC), (0xFC6, 0xFC6), (0x102D, 0x1030),
   (0x1032, 0x1037), (0x1039, 0x103A), (0x103D, 0x103E), (0x1058, 0x1059), (0x105E, 0x1060),
   (0x1071, 0x1074), (0x1082, 0x1082), (0x1085, 0x1086), (0x108D, 0x108D), (0x109D, 0x109D),
   (0x10FC, 0x10FC), (0x135D, 0x135F), (0x1712, 0x1714), (0x1732, 0x1733), (0x1752, 0x1753),
   (0x1772, 0x1773), (0x17B4, 0x17B5), (0x17B7, 0x17BD), (0x17C6, 0x17C6), (0x17C9, 0x17D3),
   (0x17D7, 0x17D7), (0x17DD, 0x17DD), (0x180B, 0x180F), (0x1843, 0x1843), (0x1885, 0x1886),
   (0x18A9, 0x18A9), (0x1920, 0x1922), (0x1927, 0x1928), (0x1932, 0x1932), (0x1939, 0x193B),
   (0x1A17, 0x1A18), (0x1A1B, 0x1A1B), (0x1A56, 0x1A56), (0x1A58, 0x1A5E), (0x1A60, 0x1A60),
   (0x1A62, 0x1A62), (0x1A65, 0x1A6C), (0x1A73, 0x1A7C), (0x1A7F, 0x1A7F), (0x1AA7, 0x1AA7),
   (0x1AB0, 0x1ACE), (0x1B00, 0x1B03), (0x1B34, 0x1B34), (0x1B36, 0x1B3A), (0x1B3C, 0x1B3C),
   (0x1B42, 0x1B42), (0x1B6B, 0x1B73), (0x1B80, 0x1B81), (0x1BA2, 0x1BA5), (0x1BA8, 0x1BA9),
   (0x1BAB, 0x1BAD), (0x1BE6, 0x1BE6), (0x1BE8, 0x1BE9), (0x1BED, 0x1BED), (0x1BEF, 0x1BF1),
   (0x1C2C, 0x1C33), (0x1C36, 0x1C37), (0x1C78, 0x1C7D), (0x1CD0, 0x1CD2), (0x1CD4, 0x1CE0),
   (0x1CE2, 0x1CE8), (0x1CED, 0x1CED), (0x1CF4, 0x1CF4), (0x1CF8, 0x1CF9), (0x1D2C, 0x1D6A),
   (0x1D78, 0x1D78), (0x1D9B, 0x1DFF), (0x1FBD, 0x1FBD), (0x1FBF, 0x1FC1), (0x1FCD, 0x1FCF),
   (0x1FDD, 0x1FDF), (0x1FED, 0x1FEF), (0x1FFD, 0x1FFE), (0x200B, 0x200F), (0x2018, 0x2019),
   (0x2024, 0x2024), (0x2027, 0x2027), (0x202A, 0x202E), (0x2060, 0x2064), (0x2066, 0x206F),
   (0x2071, 0x2071), (0x207F, 0x207F), (0x2090, 0x209C), (0x20D0, 0x20F0), (0x2C7C, 0x2C7D),
   (0x2CEF, 0x2CF1), (0x2D6F, 0x2D6F), (0x2D7F, 0x2D7F), (0x2DE0, 0x2DFF), (0x2E2F, 0x2E2F),
   (0x3005, 0x3005), (0x302A, 0x302D), (0x3031, 0x3035), (0x303B, 0x303B), (0x3099, 0x309E),
   (0x30FC, 0x30FE), (0xA015, 0xA015), (0xA4F8, 0xA4FD), (0xA60C, 0xA60C), (0xA66F, 0xA672),
   (0xA674, 0xA67D), (0xA67F, 0xA67F), (0xA69C, 0xA69F), (0xA6F0, 0xA6F1), (0xA700, 0xA721),
   (0xA770, 0xA770), (0xA788, 0xA78A), (0xA7F2, 0xA7F4), (0xA7F8, 0xA7F9), (0xA802, 0xA802),
   (0xA806, 0xA806), (0xA80B, 0xA80B), (0xA825, 0xA826), (0xA82C, 0xA82C), (0xA8C4, 0xA8C5),
   (0xA8E0, 0xA8F1), (0xA8FF, 0xA8FF), (0xA926, 0xA92D), (0xA947, 0xA951), (0xA980, 0xA982),
   (0xA9B3, 0xA9B3), (0xA9B6, 0xA9B9), (0xA9BC, 0xA9BD), (0xA9CF, 0xA9CF), (0xA9E5, 0xA9E6),
   (0xAA29, 0xAA2E), (0xAA31, 0xAA32), (0xAA35, 0xAA36), (0xAA43, 0xAA43), (0xAA4C, 0xAA4C),
   (0xAA70, 0xAA70), (0xAA7C, 0xAA7C), (0xAAB0, 0xAAB0), (0xAAB2, 0xAAB4), (0xAAB7, 0xAAB8),
   (0xAABE, 0xAABF), (0xAAC1, 0xAAC1), (0xAADD, 0xAADD), (0xAAEC, 0xAAED), (0xAAF3, 0xAAF4),
   (0xAAF6, 0xAAF6), (0xAB5B, 0xAB5F), (0xAB69, 0xAB6B), (0xABE5, 0xABE5), (0xABE8, 0xABE8),
   (0xABED, 0xABED), (0xFB1E, 0xFB1E), (0xFBB2, 0xFBC2), (0xFE00, 0xFE0F), (0xFE13, 0xFE13),
   (0xFE20, 0xFE2F), (0xFE52, 0xFE52), (0xFE55, 0xFE55), (0xFEFF, 0xFEFF), (0xFF07, 0xFF07),
   (0xFF0E, 0xFF0E), (0xFF1A, 0xFF1A), (0xFF3E, 0xFF3E), (0xFF40, 0xFF40), (0xFF70, 0xFF70),
   (0xFF9E, 0xFF9F), (0xFFE3, 0xFFE3), (0xFFF9, 0xFFFB), (0x101FD, 0x101FD), (0x102E0, 0x102E0),
   (0x10376, 0x1037A), (0x10780, 0x10785), (0x10787, 0x107B0), (0x107B2, 0x107BA), (0x10A01, 0x10A03),
   (0x10A05, 0x10A06), (0x10A0C, 0x10A0F), (0x10A38, 0x10A3A), (0x10A3F, 0x10A3F), (0x10AE5, 0x10AE6),
   (0x10D24, 0x10D27), (0x10EAB, 0x10EAC), (0x10F46, 0x10F50), (0x10F82, 0x10F85), (0x11001, 0x11001),
   (0x11038, 0x11046), (0x11070, 0x11070), (0x11073, 0x11074), (0x1107F, 0x11081), (0x110B3, 0x110B6),
   (0x110B9, 0x110BA), (0x110BD, 0x110BD), (0x110C2, 0x110C2), (0x110CD, 0x110CD), (0x11100, 0x11102),
   (0x11127, 0x1112B), (0x1112D, 0x11134), (0x11173, 0x11173), (0x11180, 0x11181), (0x111B6, 0x111BE),
   (0x111C9, 0x111CC), (0x111CF, 0x111CF), (0x1122F, 0x11231), (0x11234, 0x11234), (0x11236, 0x11237),
   (0x1123E, 0x1123E), (0x112DF, 0x112DF), (0x112E3, 0x112EA), (0x11300, 0x11301), (0x1133B, 0x1133C),
   (0x11340, 0x11340), (0x11366, 0x1136C), (0x11370, 0x11374), (0x11438, 0x1143F), (0x11442, 0x11444),
   (0x11446, 0x11446), (0x1145E, 0x1145E), (0x114B3, 0x114B8), (0x114BA, 0x114BA), (0x114BF, 0x114C0),
   (0x114C2, 0x114C3), (0x115B2, 0x115B5), (0x115BC, 0x115BD), (0x115BF, 0x115C0), (0x115DC, 0x115DD),
   (0x11633, 0x1163A), (0x1163D, 0x1163D), (0x1163F, 0x11640), (0x116AB, 0x116AB), (0x116AD, 0x116AD),
   (0x116B0, 0x116B5), (0x116B7, 0x116B7), (0x1171D, 0x1171F), (0x11722, 0x11725), (0x11727, 0x1172B),
   (0x1182F, 0x11837), (0x11839, 0x1183A), (0x1193B, 0x1193C), (0x1193E, 0x1193E), (0x11943, 0x11943),
   (0x119D4, 0x119D7), (0x119DA, 0x119DB), (0x119E0, 0x119E0), (0x11A01, 0x11A0A), (0x11A33, 0x11A38),
   (0x11A3B, 0x11A3E), (0x11A47, 0x11A47), (0x11A51, 0x11A56), (0x11A59, 0x11A5B), (0x11A8A, 0x11A96),
   (0x11A98, 0x11A99), (0x11C30, 0x11C36), (0x11C38, 0x11C3D), (0x11C3F, 0x11C3F), (0x11C92, 0x11CA7),
   (0x11CAA, 0x11CB0), (0x11CB2, 0x11CB3), (0x11CB5, 0x11CB6), (0x11D31, 0x11D36), (0x11D3A, 0x11D3A),
   (0x11D3C, 0x11D3D), (0x11D3F, 0x11D45), (0x11D47, 0x11D47), (0x11D90, 0x11D91), (0x11D95, 0x11D95),
   (0x11D97, 0x11D97), (0x11EF3, 0x11EF4), (0x13430, 0x13438), (0x16AF0, 0x16AF4), (0x16B30, 0x16B36),
   (0x16B40, 0x16B43), (0x16F4F, 0x16F4F), (0x16F8F, 0x16F9F), (0x16FE0, 0x16FE1), (0x16FE3, 0x16FE4),
   (0x1AFF0, 0x1AFF3), (0x1AFF5, 0x1AFFB), (0x1AFFD, 0x1AFFE), (0x1BC9D, 0x1BC9E), (0x1BCA0, 0x1BCA3),
   (0x1CF00, 0x1CF2D), (0x1CF30, 0x1CF46), (0x1D167, 0x1D169), (0x1D173, 0x1D182), (0x1D185, 0x1D18B),
   (0x1D1AA, 0x1D1AD), (0x1D242, 0x1D244), (0x1DA00, 0x1DA36), (0x1DA3B, 0x1DA6C), (0x1DA75, 0x1DA75),
   (0x1DA84, 0x1DA84), (0x1DA9B, 0x1DA9F), (0x1DAA1, 0x1DAAF), (0x1E000, 0x1E006), (0x1E008, 0x1E018),
   (0x1E01B, 0x1E021), (0x1E023, 0x1E024), (0x1E026, 0x1E02A), (0x1E130, 0x1E13D), (0x1E2AE, 0x1E2AE),
   (0x1E2EC, 0x1E2EF), (0x1E8D0, 0x1E8D6), (0x1E944, 0x1E94B), (0x1F3FB, 0x1F3FF), (0xE0001, 0xE0001),
   (0xE0020, 0xE007F), (0xE0100, 0xE01EF)]

/-- The code points with the property Cased, as inclusive ranges. -/
def casedRanges : List (Nat × Nat) :=
  [(0x41, 0x5A), (0x61, 0x7A), (0xAA, 0xAA), (0xB5, 0xB5), (0xBA, 0xBA),
   (0xC0, 0xD6), (0xD8, 0xF6), (0xF8, 0x1BA), (0x1BC, 0x1BF), (0x1C4, 0x293),
   (0x295, 0x2B8), (0x2C0, 0x2C1), (0x2E0, 0x2E4), (0x345, 0x345), (0x370, 0x373),
   (0x376, 0x377), (0x37A, 0x37D), (0x37F, 0x37F), (0x386, 0x386), (0x388, 0x38A),
   (0x38C, 0x38C), (0x38E, 0x3A1), (0x3A3, 0x3F5), (0x3F7, 0x481), (0x48A, 0x52F),
   (0x531, 0x556), (0x560, 0x588), (0x10A0, 0x10C5), (0x10C7, 0x10C7), (0x10CD, 0x10CD),
   (0x10D0, 0x10FA), (0x10FD, 0x10FF), (0x13A0, 0x13F5), (0x13F8, 0x13FD), (0x1C80, 0x1C88),
   (0x1C90, 0x1CBA), (0x1CBD, 0x1CBF), (0x1D00, 0x1DBF), (0x1E00, 0x1F15), (0x1F18, 0x1F1D),
   (0x1F20, 0x1F45), (0x1F48, 0x1F4D), (0x1F50, 0x1F57), (0x1F59, 0x1F59), (0x1F5B, 0x1F5B),
   (0x1F5D, 0x1F5D), (0x1F5F, 0x1F7D), (0x1F80, 0x1FB4), (0x1FB6, 0x1FBC), (0x1FBE, 0x1FBE),
   (0x1FC2, 0x1FC4), (0x1FC6, 0x1FCC), (0x1FD0, 0x1FD3), (0x1FD6, 0x1FDB), (0x1FE0, 0x1FEC),
   (0x1FF2, 0x1FF4), (0x1FF6, 0x1FFC), (0x2071, 0x2071), (0x207F, 0x207F), (0x2090, 0x209C),
   (0x2102, 0x2102), (0x2107, 0x2107), (0x210A, 0x2113), (0x2115, 0x2115), (0x2119, 0x211D),
   (0x2124, 0x2124), (0x2126, 0x2126), (0x2128, 0x2128), (0x212A, 0x212D), (0x212F, 0x2134),
   (0x2139, 0x2139), (0x213C, 0x213F), (0x2145, 0x2149), (0x214E, 0x214E), (0x2160, 0x217F),
   (0x2183, 0x2184), (0x24B6, 0x24E9), (0x2C00, 0x2CE4), (0x2CEB, 0x2CEE), (0x2CF2, 0x2CF3),
   (0x2D00, 0x2D25), (0x2D27, 0x2D27), (0x2D2D, 0x2D2D), (0xA640, 0xA66D), (0xA680, 0xA69D),
   (0xA722, 0xA787), (0xA78B, 0xA78E), (0xA790, 0xA7CA), (0xA7D0, 0xA7D1), (0xA7D3, 0xA7D3),
   (0xA7D5, 0xA7D9), (0xA7F5, 0xA7F6), (0xA7F8, 0xA7FA), (0xAB30, 0xAB5A), (0xAB5C, 0xAB68),
   (0xAB70, 0xABBF), (0xFB00, 0xFB06), (0xFB13, 0xFB17), (0xFF21, 0xFF3A), (0xFF41, 0xFF5A),
   (0x10400, 0x1044F), (0x104B0, 0x104D3), (0x104D8, 0x104FB), (0x10570, 0x1057A), (0x1057C, 0x1058A),
   (0x1058C, 0x10592), (0x10594, 0x10595), (0x10597, 0x105A1), (0x105A3, 0x105B1), (0x105B3, 0x105B9),
   (0x105BB, 0x105BC), (0x10780, 0x10780), (0x10783, 0x10785), (0x10787, 0x107B0), (0x107B2, 0x107BA),
   (0x10C80, 0x10CB2), (0x10CC0, 0x10CF2), (0x118A0, 0x118DF), (0x16E40, 0x16E7F), (0x1D400, 0x1D454),
   (0x1D456, 0x1D49C), (0x1D49E, 0x1D49F), (0x1D4A2, 0x1D4A2), (0x1D4A5, 0x1D4A6), (0x1D4A9, 0x1D4AC),
   (0x1D4AE, 0x1D4B9), (0x1D4BB, 0x1D4BB), (0x1D4BD, 0x1D4C3), (0x1D4C5, 0x1D505), (0x1D507, 0x1D50A),
   (0x1D50D, 0x1D514), (0x1D516, 0x1D51C), (0x1D51E, 0x1D539), (0x1D53B, 0x1D53E), (0x1D540, 0x1D544),
   (0x1D546, 0x1D546), (0x1D54A, 0x1D550), (0x1D552, 0x1D6A5), (0x1D6A8, 0x1D6C0), (0x1D6C2, 0x1D6DA),
   (0x1D6DC, 0x1D6FA), (0x1D6FC, 0x1D714), (0x1D716, 0x1D734), (0x1D736, 0x1D74E), (0x1D750, 0x1D76E),
   (0x1D770, 0x1D788), (0x1D78A, 0x1D7A8), (0x1D7AA, 0x1D7C2), (0x1D7C4, 0x1D7CB), (0x1DF00, 0x1DF09),
   (0x1DF0B, 0x1DF1E), (0x1E900, 0x1E943), (0x1F130, 0x1F149), (0x1F150, 0x1F169), (0x1F170, 0x1F189)]

/-- Membership of a code point in a list of inclusive ranges. -/
def inRanges (n : Nat) : List (Nat × Nat) → Bool
  | [] => false
  | (lo, hi) :: rs => (decide (lo ≤ n) && decide (n ≤ hi)) || inRanges n rs

/-- The simple lower-case mapping of a code point, if it has one. -/
def simpleLower (n : Nat) : List (Nat × Nat × Nat × Nat) → Option Nat
  | [] => none
  | (lo, hi, step, image) :: rs =>
    if lo ≤ n ∧ n ≤ hi ∧ (n - lo) % step = 0 then some (image + (n - lo)) else simpleLower n rs

/-- The character is case-ignorable. -/
def isCaseIgnorable (c : Char) : Bool :=
  inRanges c.toNat caseIgnorableRanges

/-- The character is cased. -/
def isCased (c : Char) : Bool :=
  inRanges c.toNat casedRanges

/-- The lower-case mapping of a character other than capital sigma: capital I
with dot above (U+0130) maps to `i` followed by the combining dot above
(U+0307), a character with a simple mapping to its image, any other to itself. -/
def lowerChar (c : Char) : List Char :=
  if c = '\u0130' then ['i', '\u0307']
  else
    match simpleLower c.toNat lowerRuns with
    | some m => [Char.ofNat m]
    | none => [c]

/-- The nearest character of the list that is not case-ignorable exists and is cased. -/
def nearestIsCased : List Char → Bool
  | [] => false
  | c :: cs => if isCaseIgnorable c then nearestIsCased cs else isCased c

/-- Lower-casing of the rest of a text; `before` holds the characters already
passed, nearest first. A capital sigma (U+03A3) that is preceded by a cased
letter and not followed by one becomes final sigma (U+03C2), any other one the
small sigma (U+03C3). -/
def lowerFrom (before : List Char) : List Char → List Char
  | [] => []
  | c :: rest =>
    (if c = '\u03A3' then
      [if nearestIsCased before && !nearestIsCased rest then '\u03C2' else '\u03C3']
     else lowerChar c) ++ lowerFrom (c :: before) rest

/-- JavaScript `s.toLowerCase()`. -/
def toLowerCase (s : String) : String :=
  ⟨lowerFrom [] s.data⟩

/-! ## Data model -/

/-- The persisted record: `{ title, url, timestamp, tabId }`. -/
structure TitleEntry where
  title : String
  url : String
  timestamp : String
  tabId : Int
deriving DecidableEq, Repr

/-- The `(title, url)` pair of an entry, the key of deduplication. -/
def TitleEntry.pair (e : TitleEntry) : String × String :=
  (e.title, e.url)

/-- The storage area `browser.storage.local`, restricted to the key `savedTitles`:
its current value (`none` when the key is absent) and the payloads of the `set`
calls issued so far, oldest first. -/
structure Store where
  value : Option (List TitleEntry)
  writes : List (List TitleEntry)
deriving DecidableEq, Repr

/-- The call `browser.storage.local.set({ savedTitles: v })`. -/
def Store.write (st : Store) (v : List TitleEntry) : Store :=
  { value := some v, writes := st.writes ++ [v] }

/-- The value `result.savedTitles || []` of a `storage.local.get`. -/
def Store.read (st : Store) : List TitleEntry :=
  st.value.getD []

/-- An entry object on the popup's heap: `addr` is its identity. -/
structure Obj where
  addr : Nat
  entry : TitleEntry
deriving DecidableEq, Repr

/-- The state of the extension: the background script's `savedTitles`, the
storage area, and the popup's `allTitles` and `filteredTitles` (arrays of
object references) with the next free heap address. -/
structure World where
  savedTitles : List TitleEntry
  store : Store
  allTitles : List Obj
  filteredTitles : List Obj
  nextAddr : Nat
deriving DecidableEq, Repr

/-- The extension right after installation: nothing captured, nothing stored. -/
def World.empty : World :=
  { savedTitles := [], store := { value := none, writes := [] },
    allTitles := [], filteredTitles := [], nextAddr := 0 }

/-! ## background.js -/

/-- The startup load of background.js (lines 12-16): the in-memory collection is
replaced by the stored one when the key holds a truthy value (any array is). -/
def startupLoad (w : World) : World :=
  match w.store.value with
  | some v => { w with savedTitles := v }
  | none => w

/-- The guard of `saveTitle` (lines 21-27): true when the call returns early. -/
def skipped (title url : String) : Bool :=
  !truthy title ||
  title == "Loading..." ||
  title == "New Tab" ||
  startsWith url "moz-extension:" ||
  startsWith url "about:" ||
  startsWith url "chrome:" ||
  startsWith url "chrome-extension:"

/-- The function `saveTitle(title, url, tabId)` of background.js, lines 19-56; `now` is the
value of `new Date().toISOString()`. -/
def saveTitle (w : World) (now title url : String) (tabId : Int) : World :=
  if skipped title url then w
  else
    let titleEntry : TitleEntry := { title := title, url := url, timestamp := now, tabId := tabId }
    let duplicate := w.savedTitles.find? (fun entry => entry.title == title && entry.url == url)
    match duplicate with
    | some _ => w
    | none =>
      let unshifted := titleEntry :: w.savedTitles
      let savedTitles := if unshifted.length > 1000 then unshifted.take 1000 else unshifted
      { w with savedTitles := savedTitles, store := w.store.write savedTitles }

/-- The function `clearAllTitles()` of background.js, lines 95-98. -/
def backgroundClearAllTitles (w : World) : World :=
  { w with savedTitles := [], store := w.store.write [] }

/-- The function `exportTitles()` of background.js, lines 101-103. -/
def backgroundExportTitles (w : World) : List TitleEntry :=
  w.savedTitles

/-- A tab as the host reports it; `title` and `url` may be `undefined`. -/
structure Tab where
  id : Int
  title : Option String
  url : Option String
deriving DecidableEq, Repr

/-- The change descriptor of a tab-update notification: the properties that
changed, with their new values. -/
structure ChangeInfo where
  title : Option String
  url : Option String
deriving DecidableEq, Repr

/-- A pending `setTimeout` callback of the update listener: the delay in
milliseconds and the tab identifier the callback closes over. -/
structure Timeout where
  delay : Nat
  tabId : Int
deriving DecidableEq, Repr

/-- The guarded call `if (tab.title && tab.url) saveTitle(tab.title, tab.url, tabId)`
shared by the three listeners. -/
def captureTab (w : World) (now : String) (title url : Option String) (tabId : Int) : World :=
  match title, url with
  | some t, some u => if truthy t && truthy u then saveTitle w now t u tabId else w
  | _, _ => w

/-- The `tabs.onCreated` listener, lines 59-63. -/
def onCreated (w : World) (now : String) (tab : Tab) : World :=
  captureTab w now tab.title tab.url tab.id

/-- The `tabs.onUpdated` listener, lines 66-81, up to the `setTimeout` call: the
callback it schedules, if any. -/
def onUpdated (tabId : Int) (changeInfo : ChangeInfo) (tab : Tab) : Option Timeout :=
  if (truthy? changeInfo.title || truthy? changeInfo.url) && truthy? tab.title && truthy? tab.url
  then some { delay := 500, tabId := tabId }
  else none

/-- The callback scheduled by the update listener, lines 70-79: `reread` is the
outcome of `browser.tabs.get(tabId)`, `none` when the promise is rejected. -/
def onUpdatedTimeout (w : World) (now : String) (t : Timeout) (reread : Option Tab) : World :=
  match reread with
  | some updatedTab => captureTab w now updatedTab.title updatedTab.url t.tabId
  | none => w

/-- A whole tab-update notification: the listener, then its callback if one
was scheduled. -/
def tabUpdated (w : World) (now : String) (tabId : Int) (changeInfo : ChangeInfo) (tab : Tab)
    (reread : Option Tab) : World :=
  match onUpdated tabId changeInfo tab with
  | some t => onUpdatedTimeout w now t reread
  | none => w

/-- The `tabs.onActivated` listener, lines 84-92: `lookup` is the outcome of
`browser.tabs.get(activeInfo.tabId)`. -/
def onActivated (w : World) (now : String) (lookup : Option Tab) : World :=
  match lookup with
  | some tab => captureTab w now tab.title tab.url tab.id
  | none => w

/-! ## popup.js -/

/-- Fresh heap objects for the entries of a deserialised array, at consecutive
addresses from `start`. -/
def allocate (start : Nat) : List TitleEntry → List Obj
  | [] => []
  | e :: es => { addr := start, entry := e } :: allocate (start + 1) es

/-- The function `loadTitles()` of popup.js, lines 30-37 (the data part). -/
def loadTitles (w : World) : World :=
  let allTitles := allocate w.nextAddr w.store.read
  { w with allTitles := allTitles, filteredTitles := allTitles,
           nextAddr := w.nextAddr + w.store.read.length }

/-- The function `handleSearch()` of popup.js, lines 98-112 (the data part); `value` is
`searchInput.value` and `lower` the lower-casing the script calls, `toLowerCase`. -/
def handleSearch (lower : String → String) (w : World) (value : String) : World :=
  let searchTerm := lower value
  if searchTerm == "" then { w with filteredTitles := w.allTitles }
  else
    { w with filteredTitles := w.allTitles.filter (fun entry =>
        includes (lower entry.entry.title) searchTerm ||
        includes (lower entry.entry.url) searchTerm) }

/-- JavaScript `entry === x` for an object `entry` and an array read `x` that
is an object or `undefined`. -/
def strictEq (entry : Obj) : Option Obj → Bool
  | some o => entry.addr == o.addr
  | none => false

/-- JavaScript `Array.prototype.findIndex`, with `none` for `-1`. -/
def findIndex (p : Obj → Bool) : List Obj → Option Nat
  | [] => none
  | o :: os => if p o then some 0 else (findIndex p os).map (· + 1)

/-- The function `deleteTitle(index)` of popup.js, lines 149-156. -/
def deleteTitle (w : World) (index : Nat) : World :=
  let actualIndex := findIndex (fun entry => strictEq entry w.filteredTitles[index]?) w.allTitles
  match actualIndex with
  | some k =>
    let allTitles := w.allTitles.eraseIdx k
    loadTitles { w with allTitles := allTitles, store := w.store.write (allTitles.map Obj.entry) }
  | none => w

/-- The function `clearAllTitles()` of popup.js, lines 180-189; `confirmed` is the answer
to the `confirm` dialog. -/
def clearAllTitles (w : World) (confirmed : Bool) : World :=
  if confirmed then
    { w with allTitles := [], filteredTitles := [], store := w.store.write [] }
  else w

/-- The function `getDomain(url)` of popup.js, lines 192-198; `hostname` is the host's URL
parser, `none` when `new URL(url)` throws. -/
def getDomain (hostname : String → Option String) (url : String) : String :=
  match hostname url with
  | some h => h
  | none => url

/-- The replacement the HTML fragment serialiser makes for one character of a
text node: `&`, no-break space, `<` and `>` are replaced, every other
character (the double quote included) is copied. -/
def escapeChar (c : Char) : List Char :=
  if c = '&' then "&amp;".data
  else if c = '\u00A0' then "&nbsp;".data
  else if c = '<' then "&lt;".data
  else if c = '>' then "&gt;".data
  else [c]

/-- The serialisation of a text node with data `text`, which is what
`div.innerHTML` returns after `div.textContent = text`. -/
def serializeText : List Char → List Char
  | [] => []
  | c :: cs => escapeChar c ++ serializeText cs

/-- The function `escapeHtml(text)` of popup.js, lines 200-204. -/
def escapeHtml (text : String) : String :=
  ⟨serializeText text.data⟩

/-- The markup assigned to `div.innerHTML` by `createTitleElement(entry, index)`, popup.js
lines 66-79; `toLocaleString` renders the timestamp as `new Date(..).toLocaleString()`
does. -/
def createTitleElement (hostname : String → Option String) (toLocaleString : String → String)
    (entry : TitleEntry) (index : Nat) : String :=
  let timestamp := toLocaleString entry.timestamp
  let domain := getDomain hostname entry.url
  "\n    <div class=\"title-main\">\n      <div class=\"title-text\" title=\"" ++
    escapeHtml entry.title ++ "\">" ++ escapeHtml entry.title ++
    "</div>\n      <div class=\"title-actions\">\n        <button class=\"copy-btn\" data-index=\"" ++
    toString index ++
    "\" title=\"Copy title\">📋</button>\n        <button class=\"open-btn\" data-url=\"" ++
    escapeHtml entry.url ++
    "\" title=\"Open URL\">🔗</button>\n        <button class=\"delete-btn\" data-index=\"" ++
    toString index ++
    "\" title=\"Delete entry\">❌</button>\n      </div>\n    </div>\n    <div class=\"title-meta\">\n      <span class=\"domain\">" ++
    escapeHtml domain ++ "</span>\n      <span class=\"timestamp\">" ++ timestamp ++
    "</span>\n    </div>\n  "

/-! ## Reading markup

The part of the HTML tokenizer that the markup of `createTitleElement` reaches:
start tags with double-quoted or unquoted attribute values, end tags, text. -/

/-- Tokenizer states. -/
inductive Mode where
  | data | tagOpen | endTag | tagName | beforeAttrName | attrName
  | beforeAttrValue | attrValueDq | attrValueUnq | afterAttrValue
deriving DecidableEq, Repr

/-- A start tag: its name and its attributes in source order. -/
structure StartTag where
  name : String
  attrs : List (String × String)
deriving DecidableEq, Repr

/-- The tokenizer's registers: the tag and attribute being read and the start
tags emitted so far. -/
structure Tokenizer where
  mode : Mode
  tag : List Char
  attrs : List (String × String)
  attrName : List Char
  attrValue : List Char
  out : List StartTag
deriving DecidableEq, Repr

/-- Close the attribute being read. -/
def Tokenizer.pushAttr (t : Tokenizer) : Tokenizer :=
  { t with attrs := t.attrs ++ [(⟨t.attrName⟩, ⟨t.attrValue⟩)], attrName := [], attrValue := [] }

/-- Emit the start tag being read and return to text. -/
def Tokenizer.emit (t : Tokenizer) : Tokenizer :=
  { t with mode := Mode.data, out := t.out ++ [{ name := ⟨t.tag⟩, attrs := t.attrs }],
           tag := [], attrs := [] }

/-- One character of input. -/
def Tokenizer.step (t : Tokenizer) (c : Char) : Tokenizer :=
  match t.mode with
  | Mode.data => if c = '<' then { t with mode := Mode.tagOpen } else t
  | Mode.tagOpen =>
    if c = '/' then { t with mode := Mode.endTag }
    else if c.isAlpha then { t with mode := Mode.tagName, tag := [c] }
    else { t with mode := Mode.data }
  | Mode.endTag => if c = '>' then { t with mode := Mode.data } else t
  | Mode.tagName =>
    if c.isWhitespace || c = '/' then { t with mode := Mode.beforeAttrName }
    else if c = '>' then t.emit
    else { t with tag := t.tag ++ [c] }
  | Mode.beforeAttrName =>
    if c.isWhitespace || c = '/' then t
    else if c = '>' then t.emit
    else { t with mode := Mode.attrName, attrName := [c] }
  | Mode.attrName =>
    if c = '=' then { t with mode := Mode.beforeAttrValue }
    else if c.isWhitespace || c = '/' then { t.pushAttr with mode := Mode.beforeAttrName }
    else if c = '>' then t.pushAttr.emit
    else { t with attrName := t.attrName ++ [c] }
  | Mode.beforeAttrValue =>
    if c.isWhitespace then t
    else if c = '"' then { t with mode := Mode.attrValueDq }
    else if c = '>' then t.pushAttr.emit
    else { t with mode := Mode.attrValueUnq, attrValue := [c] }
  | Mode.attrValueDq =>
    if c = '"' then { t.pushAttr with mode := Mode.afterAttrValue }
    else { t with attrValue := t.attrValue ++ [c] }
  | Mode.attrValueUnq =>
    if c.isWhitespace then { t.pushAttr with mode := Mode.beforeAttrName }
    else if c = '>' then t.pushAttr.emit
    else { t with attrValue := t.attrValue ++ [c] }
  | Mode.afterAttrValue =>
    if c.isWhitespace || c = '/' then { t with mode := Mode.beforeAttrName }
    else if c = '>' then t.emit
    else { t with mode := Mode.attrName, attrName := [c] }

/-- The start tags of a markup string, in document order. -/
def startTags (markup : String) : List StartTag :=
  (markup.data.foldl Tokenizer.step
    { mode := Mode.data, tag := [], attrs := [], attrName := [], attrValue := [], out := [] }).out

/-- The element and attribute structure of a markup string: per start tag,
its name and the names of its attributes. -/
def structureOf (markup : String) : List (String × List String) :=
  (startTags markup).map (fun t => (t.name, t.attrs.map Prod.fst))

/-! ## Capture sequences -/

/-- The arguments of one `saveTitle` call, with the time it was made. -/
structure Capture where
  now : String
  title : String
  url : String
  tabId : Int
deriving DecidableEq, Repr

/-- The entry a capture creates. -/
def Capture.entry (c : Capture) : TitleEntry :=
  { title := c.title, url := c.url, timestamp := c.now, tabId := c.tabId }

/-- The `(title, url)` pair of a capture. -/
def Capture.pair (c : Capture) : String × String :=
  (c.title, c.url)

/-- A sequence of `saveTitle` calls, in order. -/
def captures (w : World) (cs : List Capture) : World :=
  cs.foldl (fun w c => saveTitle w c.now c.title c.url c.tabId) w

/-! ## The combined system -/

/-- The events that move the extension: a capture by the background script,
its startup load, and the panel's operations. -/
inductive Action where
  | saveTitle (now title url : String) (tabId : Int)
  | startupLoad
  | loadTitles
  | handleSearch (value : String)
  | deleteTitle (index : Nat)
  | clearAllTitles (confirmed : Bool)
deriving DecidableEq, Repr

/-- One event. -/
def perform (lower : String → String) (w : World) : Action → World
  | Action.saveTitle now title url tabId => saveTitle w now title url tabId
  | Action.startupLoad => startupLoad w
  | Action.loadTitles => loadTitles w
  | Action.handleSearch value => handleSearch lower w value
  | Action.deleteTitle index => deleteTitle w index
  | Action.clearAllTitles confirmed => clearAllTitles w confirmed

/-- A history of events, oldest first. -/
def run (lower : String → String) (w : World) (actions : List Action) : World :=
  actions.foldl (perform lower) w

/-! ## The specification's vocabulary -/

/-- The internal-scheme prefixes of the qualification predicate. -/
def internalPrefixes : List String :=
  ["moz-extension:", "about:", "chrome:", "chrome-extension:"]

/-- The qualification predicate of the specification: the title is non-empty
and no placeholder, and the URL starts with no internal-scheme prefix. -/
def Qualifies (title url : String) : Prop :=
  title ≠ "" ∧ title ≠ "Loading..." ∧ title ≠ "New Tab" ∧
    ∀ p ∈ internalPrefixes, ¬ p.data <+: url.data

/-- Some entry of the collection has exactly this title and this URL. -/
def Duplicate (l : List TitleEntry) (title url : String) : Prop :=
  ∃ e ∈ l, e.title = title ∧ e.url = url

/-- No two entries of the collection share both title and URL. -/
def Unique (l : List TitleEntry) : Prop :=
  (l.map TitleEntry.pair).Nodup

/-- The text is ASCII: every character is below U+0080. -/
def IsAscii (s : String) : Prop :=
  ∀ c ∈ s.data, c.toNat < 128

instance (s : String) : Decidable (IsAscii s) :=
  inferInstanceAs (Decidable (∀ c ∈ s.data, c.toNat < 128))

/-- Two characters are equal up to case: they are equal, or one is a capital
letter `A`..`Z` and the other the small letter 32 code points above it. -/
def SameLetter (c d : Char) : Prop :=
  c = d ∨ ('A' ≤ c ∧ c ≤ 'Z' ∧ d.toNat = c.toNat + 32) ∨
    ('A' ≤ d ∧ d ≤ 'Z' ∧ c.toNat = d.toNat + 32)

instance (c d : Char) : Decidable (SameLetter c d) :=
  inferInstanceAs (Decidable (_ ∨ _ ∨ _))

/-- The text contains the term as a case-insensitive substring: some run of
consecutive characters of the text equals the term up to the case of each
letter. -/
def ContainsIgnoringCase (text term : String) : Prop :=
  ∃ u, u <:+: text.data ∧ List.Forall₂ SameLetter u term.data

/-- Uniqueness of (title, url) in the three copies of the collection: the
background script's, the persisted one and the panel's. -/
def AllUnique (w : World) : Prop :=
  Unique w.savedTitles ∧ Unique w.store.read ∧ Unique (w.allTitles.map Obj.entry)

/-! ## Sample data -/

/-- A stored collection with the titles Alpha, Beta, Gamma. -/
def alphaBetaGamma : List TitleEntry :=
  [⟨"Alpha", "https://x.org/1", "2024-05-01T10:00:02.000Z", 3⟩,
   ⟨"Beta", "https://x.org/2", "2024-05-01T10:00:01.000Z", 2⟩,
   ⟨"Gamma", "https://x.org/3", "2024-05-01T10:00:00.000Z", 1⟩]

/-- A world whose storage holds `alphaBetaGamma`, the panel not yet opened. -/
def storedWorld : World :=
  { World.empty with store := { value := some alphaBetaGamma, writes := [alphaBetaGamma] } }

/-- A world whose storage holds one entry, titled with capital alpha and
capital sigma. -/
def sigmaWorld : World :=
  { World.empty with store :=
      { value := some [⟨"ΑΣ", "https://x.org/4", "2024-05-01T10:00:00.000Z", 1⟩], writes := [] } }

/-- A world whose storage holds one entry with a title outside ASCII. -/
def umlautWorld : World :=
  { World.empty with store :=
      { value := some [⟨"ÄPFEL", "https://x.org/5", "2024-05-01T10:00:00.000Z", 1⟩],
        writes := [] } }

/-- A world in which the background script holds one entry. -/
def oneEntryWorld : World :=
  saveTitle World.empty "2024-05-01T10:00:00.000Z" "Example" "https://example.com/" 1

/-- An entry whose title holds a double quote. -/
def quotedEntry : TitleEntry :=
  ⟨"a\" onmouseover=\"alert(1)", "https://e.com/", "2024-05-01T10:00:00.000Z", 3⟩

/-- An entry with a plain alphanumeric title and url. -/
def plainEntry : TitleEntry :=
  ⟨"Hello", "abc", "2024-05-01T10:00:00.000Z", 3⟩

/-- Two qualifying captures with distinct pairs. -/
def sampleCaptures : List Capture :=
  [⟨"2024-05-01T10:00:00.000Z", "Example", "https://example.com/", 1⟩,
   ⟨"2024-05-01T10:00:05.000Z", "Other", "https://other.example/", 2⟩]

/-- A collection at the cap: 1000 copies of one entry. -/
def fullWorld : World :=
  { World.empty with savedTitles := List.replicate 1000 plainEntry }

/-! ## Lemmas on the capture path -/

theorem startsWith_iff (s p : String) : startsWith s p = true ↔ p.data <+: s.data := by
  unfold startsWith
  exact List.isPrefixOf_iff_prefix

theorem truthy_iff (s : String) : truthy s = true ↔ s ≠ "" := by
  simp [truthy]

theorem skipped_eq_false_iff (title url : String) :
    skipped title url = false ↔ Qualifies title url := by
  simp only [skipped, Qualifies, internalPrefixes, Bool.or_eq_false_iff, Bool.not_eq_false_eq_eq_true,
    truthy_iff, beq_eq_false_iff_ne, ne_eq, List.mem_cons, List.mem_singleton, forall_eq_or_imp,
    forall_eq, ← startsWith_iff, Bool.not_eq_true, List.not_mem_nil, false_implies, implies_true,
    and_true, List.mem_nil_iff, IsEmpty.forall_iff]
  tauto

theorem find_none_iff (l : List TitleEntry) (title url : String) :
    l.find? (fun entry => entry.title == title && entry.url == url) = none ↔
      ¬ Duplicate l title url := by
  simp [Duplicate, List.find?_eq_none]

theorem find_some_of_duplicate (l : List TitleEntry) (title url : String)
    (h : Duplicate l title url) :
    ∃ d, l.find? (fun entry => entry.title == title && entry.url == url) = some d := by
  cases hf : l.find? (fun entry => entry.title == title && entry.url == url) with
  | some d => exact ⟨d, rfl⟩
  | none => exact absurd h ((find_none_iff l title url).1 hf)

/-- A qualifying capture that matches no entry prepends and truncates, and
writes the result. -/
theorem saveTitle_fresh (w : World) (now title url : String) (tabId : Int)
    (hq : Qualifies title url) (hnew : ¬ Duplicate w.savedTitles title url) :
    saveTitle w now title url tabId =
      { w with
        savedTitles := (TitleEntry.mk title url now tabId :: w.savedTitles).take 1000,
        store := w.store.write ((TitleEntry.mk title url now tabId :: w.savedTitles).take 1000) } := by
  have hs := (skipped_eq_false_iff title url).2 hq
  have hf := (find_none_iff w.savedTitles title url).2 hnew
  have htake : ∀ l : List TitleEntry, (if l.length > 1000 then l.take 1000 else l) = l.take 1000 := by
    intro l
    split
    · rfl
    · rw [List.take_of_length_le (by omega)]
  simp only [saveTitle, hs, hf, htake]
  rfl

/-- A call that fails the guard changes nothing. -/
theorem saveTitle_of_skipped (w : World) (now title url : String) (tabId : Int)
    (h : skipped title url = true) : saveTitle w now title url tabId = w := by
  simp [saveTitle, h]

/-- A call that matches an entry changes nothing. -/
theorem saveTitle_of_duplicate (w : World) (now title url : String) (tabId : Int)
    (h : Duplicate w.savedTitles title url) : saveTitle w now title url tabId = w := by
  obtain ⟨d, hd⟩ := find_some_of_duplicate _ _ _ h
  unfold saveTitle
  split
  · rfl
  · simp only [hd]

/-- After a sequence of qualifying captures with pairwise distinct pairs,
started on an empty collection, the collection is the newest 1000 entries,
newest first. -/
theorem captures_savedTitles (w : World) (cs : List Capture) (h0 : w.savedTitles = [])
    (hq : ∀ c ∈ cs, Qualifies c.title c.url) (hd : (cs.map Capture.pair).Nodup) :
    (captures w cs).savedTitles = ((cs.map Capture.entry).reverse).take 1000 := by
  induction cs using List.reverseRecOn with
  | nil => simp [captures, h0]
  | append_singleton cs c ih =>
    have hq' : ∀ c ∈ cs, Qualifies c.title c.url := fun x hx => hq x (by simp [hx])
    rw [List.map_append, List.nodup_append] at hd
    obtain ⟨hd1, -, hdis⟩ := hd
    have ih := ih hq' hd1
    have hstep : captures w (cs ++ [c]) = saveTitle (captures w cs) c.now c.title c.url c.tabId := by
      simp [captures, List.foldl_append]
    have hnew : ¬ Duplicate (captures w cs).savedTitles c.title c.url := by
      rintro ⟨e, he, ht, hu⟩
      rw [ih] at he
      have he' := List.mem_of_mem_take he
      rw [List.mem_reverse, List.mem_map] at he'
      obtain ⟨c', hc', rfl⟩ := he'
      have h1 : c'.pair ∈ cs.map Capture.pair := List.mem_map_of_mem _ hc'
      have h2 : c.pair ∈ [c].map Capture.pair := by simp
      have : c'.pair = c.pair := by
        simp only [Capture.pair, Capture.entry] at *
        rw [ht, hu]
      exact hdis h1 (this ▸ h2)
    rw [hstep, saveTitle_fresh _ _ _ _ _ (hq c (by simp)) hnew]
    simp only [ih, List.map_append, List.map_cons, List.map_nil, List.reverse_append,
      List.reverse_cons, List.reverse_nil, List.nil_append, List.cons_append]
    show (Capture.entry c :: _).take 1000 = _
    rw [show (1000 : Nat) = 999 + 1 from rfl, List.take_succ_cons, List.take_succ_cons,
      List.take_take]
    simp

/-! ## Claims on the capture path -/

/-- C1: on a collection of at most 1000 entries, a qualifying `saveTitle` call whose
pair matches no entry leaves the first 1000 elements of (new entry :: old
collection): the new entry, with the given title, url and tabId, is at index
0, the old entries follow in order, the length grows by one below the cap and
stays 1000 at the cap with the old entry at index 999 dropped; that same list
is the one write issued to storage. -/
theorem saveTitle_prepends (w : World) (now title url : String) (tabId : Int)
    (hlen : w.savedTitles.length ≤ 1000) (hq : Qualifies title url)
    (hnew : ¬ Duplicate w.savedTitles title url) :
    (saveTitle w now title url tabId).savedTitles =
        (TitleEntry.mk title url now tabId :: w.savedTitles).take 1000 ∧
      (saveTitle w now title url tabId).savedTitles[0]? = some (TitleEntry.mk title url now tabId) ∧
      (w.savedTitles.length < 1000 →
        (saveTitle w now title url tabId).savedTitles =
            TitleEntry.mk title url now tabId :: w.savedTitles ∧
          (saveTitle w now title url tabId).savedTitles.length = w.savedTitles.length + 1) ∧
      (w.savedTitles.length = 1000 →
        (saveTitle w now title url tabId).savedTitles =
            TitleEntry.mk title url now tabId :: w.savedTitles.dropLast ∧
          (saveTitle w now title url tabId).savedTitles.length = 1000) ∧
      (saveTitle w now title url tabId).store.value =
        some (saveTitle w now title url tabId).savedTitles ∧
      (saveTitle w now title url tabId).store.writes =
        w.store.writes ++ [(saveTitle w now title url tabId).savedTitles] := by
  rw [saveTitle_fresh w now title url tabId hq hnew]
  refine ⟨rfl, by simp, ?_, ?_, rfl, rfl⟩
  · intro h
    have : (TitleEntry.mk title url now tabId :: w.savedTitles).take 1000 =
        TitleEntry.mk title url now tabId :: w.savedTitles :=
      List.take_of_length_le (by simp; omega)
    simp only [this, List.length_cons, and_self]
  · intro h
    have : (TitleEntry.mk title url now tabId :: w.savedTitles).take 1000 =
        TitleEntry.mk title url now tabId :: w.savedTitles.dropLast := by
      rw [show (1000 : Nat) = 999 + 1 from rfl, List.take_succ_cons, List.dropLast_eq_take, h]
    simp only [this, List.length_cons, List.length_dropLast, h, and_self]

/-- C2: a `saveTitle` call whose title is empty, `Loading...` or `New Tab`, or whose url
starts with an internal-scheme prefix, leaves the in-memory collection and
the storage area as they were and issues no write. -/
theorem saveTitle_skips (w : World) (now title url : String) (tabId : Int)
    (h : title = "" ∨ title = "Loading..." ∨ title = "New Tab" ∨
      ∃ p ∈ internalPrefixes, p.data <+: url.data) :
    saveTitle w now title url tabId = w := by
  apply saveTitle_of_skipped
  by_contra hs
  rw [Bool.not_eq_true, skipped_eq_false_iff] at hs
  obtain ⟨h1, h2, h3, h4⟩ := hs
  rcases h with h | h | h | ⟨p, hp, hpre⟩
  · exact h1 h
  · exact h2 h
  · exact h3 h
  · exact h4 p hp hpre

/-- C3: a qualifying `saveTitle` call whose (title, url) is that of some entry of the
collection, at any index, leaves the whole state as it was (same entries,
same order, same timestamps and tabIds, no write), whatever its tabId and
capture time. -/
theorem saveTitle_drops_duplicate (w : World) (now title url : String) (tabId : Int)
    (_hq : Qualifies title url) (hdup : Duplicate w.savedTitles title url) :
    saveTitle w now title url tabId = w :=
  saveTitle_of_duplicate w now title url tabId hdup

/-- C4: from an empty collection, any sequence of qualifying `saveTitle` calls with
pairwise distinct (title, url) pairs leaves at most 1000 entries, namely
min(n, 1000) of them, whose pairs are the last min(n, 1000) pairs of the
sequence, newest first. -/
theorem captures_keep_newest (w : World) (cs : List Capture) (h0 : w.savedTitles = [])
    (hq : ∀ c ∈ cs, Qualifies c.title c.url) (hd : (cs.map Capture.pair).Nodup) :
    (captures w cs).savedTitles.length ≤ 1000 ∧
      (captures w cs).savedTitles.length = min cs.length 1000 ∧
      (captures w cs).savedTitles.map TitleEntry.pair =
        ((cs.map Capture.pair).drop (cs.length - min cs.length 1000)).reverse ∧
      (captures w cs).savedTitles =
        ((cs.map Capture.entry).drop (cs.length - min cs.length 1000)).reverse := by
  have hmain := captures_savedTitles w cs h0 hq hd
  have hk : cs.length - min cs.length 1000 = cs.length - 1000 := by
    rcases Nat.le_total cs.length 1000 with h | h
    · rw [Nat.min_eq_left h]; omega
    · rw [Nat.min_eq_right h]
  have hlen : (captures w cs).savedTitles.length = min cs.length 1000 := by
    rw [hmain, List.length_take, List.length_reverse, List.length_map, Nat.min_comm]
  have hentries : (captures w cs).savedTitles =
      ((cs.map Capture.entry).drop (cs.length - min cs.length 1000)).reverse := by
    rw [hmain, hk, List.take_reverse, List.length_map]
  refine ⟨?_, hlen, ?_, hentries⟩
  · rw [hlen]; exact Nat.min_le_right _ _
  · rw [hentries, List.map_reverse, List.map_drop, List.map_map]
    rfl

/-! ## Lemmas on the panel -/

theorem includesChars_iff (p s : List Char) : includesChars p s = true ↔ p <:+: s := by
  induction s with
  | nil => simp [includesChars, List.isEmpty_iff]
  | cons c s ih =>
    rw [includesChars, Bool.or_eq_true, ih, List.isPrefixOf_iff_prefix, List.infix_cons_iff]

theorem includes_iff (s p : String) : includes s p = true ↔ p.data <:+: s.data :=
  includesChars_iff _ _

theorem handleSearch_allTitles (lower : String → String) (w : World) (value : String) :
    (handleSearch lower w value).allTitles = w.allTitles := by
  simp only [handleSearch]
  split <;> rfl

theorem handleSearch_store (lower : String → String) (w : World) (value : String) :
    (handleSearch lower w value).store = w.store := by
  simp only [handleSearch]
  split <;> rfl

theorem handleSearch_savedTitles (lower : String → String) (w : World) (value : String) :
    (handleSearch lower w value).savedTitles = w.savedTitles := by
  simp only [handleSearch]
  split <;> rfl

theorem handleSearch_subset (lower : String → String) (w : World) (value : String) :
    ∀ o ∈ (handleSearch lower w value).filteredTitles, o ∈ w.allTitles := by
  intro o ho
  simp only [handleSearch] at ho
  split at ho
  · exact ho
  · exact List.mem_of_mem_filter ho

theorem allocate_entries (n : Nat) (es : List TitleEntry) :
    (allocate n es).map Obj.entry = es := by
  induction es generalizing n with
  | nil => rfl
  | cons e es ih => simp [allocate, ih]

theorem allocate_addrs (n : Nat) (es : List TitleEntry) :
    (allocate n es).map Obj.addr = List.range' n es.length := by
  induction es generalizing n with
  | nil => rfl
  | cons e es ih => simp [allocate, ih, List.range'_succ]

theorem allocate_nodup (n : Nat) (es : List TitleEntry) :
    ((allocate n es).map Obj.addr).Nodup := by
  rw [allocate_addrs]
  exact List.nodup_range' n es.length

theorem map_eraseIdx {α β : Type} (f : α → β) (l : List α) (k : Nat) :
    (l.eraseIdx k).map f = (l.map f).eraseIdx k := by
  induction l generalizing k with
  | nil => rfl
  | cons a l ih =>
    cases k with
    | zero => rfl
    | succ k => simp [List.eraseIdx, ih]

theorem findIndex_none (p : Obj → Bool) (l : List Obj) (h : ∀ o ∈ l, p o = false) :
    findIndex p l = none := by
  induction l with
  | nil => rfl
  | cons o os ih =>
    have ho : p o = false := h o (by simp)
    have ih := ih (fun x hx => h x (by simp [hx]))
    simp [findIndex, ho, ih]

theorem findIndex_some (p : Obj → Bool) (l : List Obj) (h : ∃ o ∈ l, p o = true) :
    ∃ k o, findIndex p l = some k ∧ l[k]? = some o ∧ p o = true := by
  induction l with
  | nil => simp at h
  | cons a os ih =>
    by_cases ha : p a = true
    · exact ⟨0, a, by simp [findIndex, ha], by simp, ha⟩
    · obtain ⟨o, ho, hp⟩ := h
      have ho' : o ∈ os := by
        rcases List.mem_cons.1 ho with rfl | h'
        · exact absurd hp ha
        · exact h'
      obtain ⟨k, o', hk, hget, hp'⟩ := ih ⟨o, ho', hp⟩
      exact ⟨k + 1, o', by simp [findIndex, ha, hk], by simpa using hget, hp'⟩

/-- With pairwise distinct addresses, `findIndex` with `===` against a member
of the array returns the one position that holds it. -/
theorem findIndex_strictEq (l : List Obj) (hnd : (l.map Obj.addr).Nodup) (o : Obj) (ho : o ∈ l) :
    ∃ k, findIndex (fun entry => strictEq entry (some o)) l = some k ∧ l[k]? = some o ∧
      ∀ j, l[j]? = some o → j = k := by
  obtain ⟨k, o', hk, hget, hp⟩ :=
    findIndex_some (fun entry => strictEq entry (some o)) l ⟨o, ho, by simp [strictEq]⟩
  have heq : o' = o :=
    List.inj_on_of_nodup_map hnd (List.getElem?_mem hget) ho (by simpa [strictEq] using hp)
  subst heq
  refine ⟨k, hk, hget, fun j hj => ?_⟩
  have hjlt : j < l.length := (List.getElem?_eq_some.1 hj).1
  exact List.getElem?_inj hjlt (List.Nodup.of_map _ hnd) (hj.trans hget.symm)

/-- Deleting the entry shown at a valid position of a view into an array of
distinct objects: the position found is the one holding that object, the
array without it is written, and the panel reloads. -/
theorem deleteTitle_of_shown (w : World) (i : Nat) (hnd : (w.allTitles.map Obj.addr).Nodup)
    (hsub : ∀ o ∈ w.filteredTitles, o ∈ w.allTitles) (hi : i < w.filteredTitles.length) :
    ∃ k, w.allTitles[k]? = w.filteredTitles[i]? ∧
      (∀ j, w.allTitles[j]? = w.filteredTitles[i]? → j = k) ∧
      deleteTitle w i = loadTitles { w with
        allTitles := w.allTitles.eraseIdx k,
        store := w.store.write ((w.allTitles.eraseIdx k).map Obj.entry) } := by
  have hget : w.filteredTitles[i]? = some w.filteredTitles[i] := List.getElem?_eq_getElem hi
  obtain ⟨k, hk, hk1, hk2⟩ := findIndex_strictEq w.allTitles hnd w.filteredTitles[i]
    (hsub _ (List.getElem_mem hi))
  refine ⟨k, by rw [hget, hk1], fun j hj => hk2 j (by rw [hj, hget]), ?_⟩
  simp only [deleteTitle, hget, hk]

/-- An index outside the view deletes nothing. -/
theorem deleteTitle_of_outside (w : World) (i : Nat) (hi : ¬ i < w.filteredTitles.length) :
    deleteTitle w i = w := by
  have hget : w.filteredTitles[i]? = none := List.getElem?_eq_none (by omega)
  have hnone : findIndex (fun entry => strictEq entry none) w.allTitles = none :=
    findIndex_none _ _ (fun _ _ => rfl)
  simp only [deleteTitle, hget, hnone]

/-! ## Lemmas on lower-casing -/

theorem includes_empty (s : String) : includes s "" = true := by
  show includesChars [] s.data = true
  cases s.data <;> rfl

/-- Whatever the lower-casing function, `handleSearch` leaves the entries whose
lower-cased title or url includes the lower-cased value. -/
theorem handleSearch_filteredTitles (lower : String → String) (w : World) (value : String) :
    (handleSearch lower w value).filteredTitles =
      w.allTitles.filter (fun o =>
        includes (lower o.entry.title) (lower value) ||
          includes (lower o.entry.url) (lower value)) := by
  simp only [handleSearch]
  split
  · rename_i h
    rw [beq_iff_eq] at h
    symm
    rw [List.filter_eq_self]
    intro o _
    rw [h, includes_empty]
    rfl
  · rfl

/-- On ASCII the model agrees with ASCII lower-casing, and no ASCII character
is the capital sigma. -/
theorem lowerChar_ascii : ∀ n, n < 128 →
    lowerChar (Char.ofNat n) = [(Char.ofNat n).toLower] ∧ Char.ofNat n ≠ '\u03A3' := by
  decide!

/-- Two ASCII characters have the same lower-case form exactly when they are
the same letter up to case. -/
theorem toLower_eq_iff_ascii : ∀ m, m < 128 → ∀ n, n < 128 →
    ((Char.ofNat m).toLower = (Char.ofNat n).toLower ↔
      SameLetter (Char.ofNat m) (Char.ofNat n)) := by
  decide!

theorem lowerFrom_ascii (before cs : List Char) (h : ∀ c ∈ cs, c.toNat < 128) :
    lowerFrom before cs = cs.map Char.toLower := by
  induction cs generalizing before with
  | nil => rfl
  | cons c cs ih =>
    have hc := lowerChar_ascii c.toNat (h c (by simp))
    rw [Char.ofNat_toNat] at hc
    simp only [lowerFrom, if_neg hc.2, hc.1, List.map_cons, List.singleton_append]
    rw [ih _ (fun x hx => h x (by simp [hx]))]

theorem toLowerCase_ascii (s : String) (h : IsAscii s) :
    (toLowerCase s).data = s.data.map Char.toLower :=
  lowerFrom_ascii [] s.data h

theorem infix_map_iff {α β : Type} (f : α → β) (l : List β) (a : List α) :
    l <:+: a.map f ↔ ∃ u, u <:+: a ∧ u.map f = l := by
  constructor
  · rintro ⟨s, t, h⟩
    obtain ⟨st, t', rfl, hst, -⟩ := List.append_eq_map_iff.1 h
    obtain ⟨s', u, rfl, -, hu⟩ := List.map_eq_append_iff.1 hst
    exact ⟨u, ⟨s', t', rfl⟩, hu⟩
  · rintro ⟨u, hu, rfl⟩
    exact hu.map f

theorem map_toLower_eq_iff (u v : List Char) (hu : ∀ c ∈ u, c.toNat < 128)
    (hv : ∀ c ∈ v, c.toNat < 128) :
    u.map Char.toLower = v.map Char.toLower ↔ List.Forall₂ SameLetter u v := by
  induction u generalizing v with
  | nil =>
    cases v with
    | nil => simp
    | cons d v => simp
  | cons c u ih =>
    cases v with
    | nil => simp
    | cons d v =>
      have hcd := toLower_eq_iff_ascii c.toNat (hu c (by simp)) d.toNat (hv d (by simp))
      rw [Char.ofNat_toNat, Char.ofNat_toNat] at hcd
      rw [List.map_cons, List.map_cons, List.cons.injEq, List.forall₂_cons, hcd,
        ih v (fun x hx => hu x (by simp [hx])) (fun x hx => hv x (by simp [hx]))]

/-- On ASCII text, inclusion of the lower-cased term in the lower-cased text is
case-insensitive containment. -/
theorem includes_toLowerCase_ascii (text term : String) (ht : IsAscii text)
    (hv : IsAscii term) :
    includes (toLowerCase text) (toLowerCase term) = true ↔ ContainsIgnoringCase text term := by
  rw [includes_iff, toLowerCase_ascii text ht, toLowerCase_ascii term hv, infix_map_iff]
  constructor
  · rintro ⟨u, hu, h⟩
    exact ⟨u, hu, (map_toLower_eq_iff u term.data (fun c hc => ht c (hu.subset hc)) hv).1 h⟩
  · rintro ⟨u, hu, h⟩
    exact ⟨u, hu, (map_toLower_eq_iff u term.data (fun c hc => ht c (hu.subset hc)) hv).2 h⟩

/-! ## Claims on the panel -/

/-- C5, as stated, fails: the stored title, capital alpha and capital sigma,
contains the search value, capital sigma, as it stands; lower-casing turns the
title's sigma into final sigma and the search value into small sigma, and
`handleSearch` keeps no entry. -/
theorem handleSearch_final_sigma :
    (loadTitles sigmaWorld).allTitles.map (fun o => o.entry.title) = ["ΑΣ"] ∧
      "Σ".data <:+: "ΑΣ".data ∧
      toLowerCase "ΑΣ" = "ας" ∧
      toLowerCase "Σ" = "σ" ∧
      (handleSearch toLowerCase (loadTitles sigmaWorld) "Σ").filteredTitles = [] := by
  decide!

/-- C5, amended: `handleSearch` sets the filtered list to the full collection, in the
same order, when the search value is empty, and otherwise to the entries of
the full collection, in their order, whose lower-cased title or lower-cased
url contains the lower-cased search value; when the search value and the
titles and urls of the collection are ASCII, these are exactly the entries
whose title or url contains the value as a case-insensitive substring; nothing
else changes. For the titles Alpha, Beta, Gamma the term `a` keeps all three
and the term `Be` keeps only Beta. -/
theorem handleSearch_lowercase_filter :
    (∀ (w : World) (value : String),
      (value = "" → (handleSearch toLowerCase w value).filteredTitles = w.allTitles) ∧
      (handleSearch toLowerCase w value).filteredTitles =
        w.allTitles.filter (fun o =>
          includes (toLowerCase o.entry.title) (toLowerCase value) ||
            includes (toLowerCase o.entry.url) (toLowerCase value)) ∧
      (IsAscii value → (∀ o ∈ w.allTitles, IsAscii o.entry.title ∧ IsAscii o.entry.url) →
        ∃ keep : Obj → Bool,
          (∀ o ∈ w.allTitles, keep o = true ↔
            (ContainsIgnoringCase o.entry.title value ∨
              ContainsIgnoringCase o.entry.url value)) ∧
          (handleSearch toLowerCase w value).filteredTitles = w.allTitles.filter keep) ∧
      (handleSearch toLowerCase w value).allTitles = w.allTitles ∧
      (handleSearch toLowerCase w value).store = w.store ∧
      (handleSearch toLowerCase w value).savedTitles = w.savedTitles) ∧
    (handleSearch toLowerCase (loadTitles storedWorld) "a").filteredTitles.map
        (fun o => o.entry.title) = ["Alpha", "Beta", "Gamma"] ∧
    (handleSearch toLowerCase (loadTitles storedWorld) "Be").filteredTitles.map
        (fun o => o.entry.title) = ["Beta"] := by
  refine ⟨fun w value => ⟨?_, handleSearch_filteredTitles _ _ _, ?_,
    handleSearch_allTitles _ _ _, handleSearch_store _ _ _, handleSearch_savedTitles _ _ _⟩,
    by decide!, by decide!⟩
  · intro hv
    subst hv
    rfl
  · intro hvalue hall
    refine ⟨fun o => includes (toLowerCase o.entry.title) (toLowerCase value) ||
      includes (toLowerCase o.entry.url) (toLowerCase value), fun o ho => ?_,
      handleSearch_filteredTitles _ _ _⟩
    rw [Bool.or_eq_true, includes_toLowerCase_ascii _ _ (hall o ho).1 hvalue,
      includes_toLowerCase_ascii _ _ (hall o ho).2 hvalue]

/-- C6: in a panel that has loaded the stored collection and filtered it with
`handleSearch`, `deleteTitle(i)` at a valid index of the filtered view finds the one
position k of the full collection that holds the object shown at position i,
and persists (and reloads) the stored collection with position k erased:
every other entry stays, in order, and the length drops by one. At an index
outside the view nothing is removed and nothing is written. -/
theorem deleteTitle_removes_shown (lower : String → String) (w : World) (value : String)
    (i : Nat) :
    (i < (handleSearch lower (loadTitles w) value).filteredTitles.length →
      ∃ k, (loadTitles w).allTitles[k]? =
            (handleSearch lower (loadTitles w) value).filteredTitles[i]? ∧
        (∀ j, (loadTitles w).allTitles[j]? =
            (handleSearch lower (loadTitles w) value).filteredTitles[i]? → j = k) ∧
        w.store.read[k]? =
          ((handleSearch lower (loadTitles w) value).filteredTitles[i]?).map Obj.entry ∧
        (deleteTitle (handleSearch lower (loadTitles w) value) i).store.value =
          some (w.store.read.eraseIdx k) ∧
        (deleteTitle (handleSearch lower (loadTitles w) value) i).store.writes =
          w.store.writes ++ [w.store.read.eraseIdx k] ∧
        (w.store.read.eraseIdx k).length + 1 = w.store.read.length ∧
        (deleteTitle (handleSearch lower (loadTitles w) value) i).allTitles.map Obj.entry =
          w.store.read.eraseIdx k) ∧
    (¬ i < (handleSearch lower (loadTitles w) value).filteredTitles.length →
      deleteTitle (handleSearch lower (loadTitles w) value) i =
        handleSearch lower (loadTitles w) value) := by
  have hall : (handleSearch lower (loadTitles w) value).allTitles =
      allocate w.nextAddr w.store.read := handleSearch_allTitles _ _ _
  have hstore : (handleSearch lower (loadTitles w) value).store = w.store :=
    handleSearch_store _ _ _
  have hload : (loadTitles w).allTitles = allocate w.nextAddr w.store.read := rfl
  have hsub : ∀ o ∈ (handleSearch lower (loadTitles w) value).filteredTitles,
      o ∈ (handleSearch lower (loadTitles w) value).allTitles := by
    intro o ho
    rw [hall]
    exact handleSearch_subset _ _ _ o ho
  refine ⟨fun hi => ?_, fun hi => deleteTitle_of_outside _ i hi⟩
  obtain ⟨k, hk1, hk2, hdel⟩ := deleteTitle_of_shown
    (handleSearch lower (loadTitles w) value) i
    (by rw [hall]; exact allocate_nodup _ _) hsub hi
  rw [hall] at hk1 hk2
  have hklt : k < w.store.read.length := by
    have hget : (handleSearch lower (loadTitles w) value).filteredTitles[i]? =
        some (handleSearch lower (loadTitles w) value).filteredTitles[i] :=
      List.getElem?_eq_getElem hi
    rw [hget] at hk1
    have := (List.getElem?_eq_some.1 hk1).1
    rw [← List.length_map (allocate w.nextAddr w.store.read) Obj.entry, allocate_entries] at this
    exact this
  have hwritten : ((handleSearch lower (loadTitles w) value).allTitles.eraseIdx k).map
      Obj.entry = w.store.read.eraseIdx k := by
    rw [hall, map_eraseIdx, allocate_entries]
  refine ⟨k, by rw [hload]; exact hk1, fun j hj => hk2 j (by rw [← hload]; exact hj), ?_, ?_, ?_,
    ?_, ?_⟩
  · rw [← hk1, ← List.getElem?_map, allocate_entries]
  · rw [hdel, hwritten]; rfl
  · rw [hdel, hwritten, hstore]; rfl
  · exact List.length_eraseIdx_add_one hklt
  · rw [hdel, hwritten]
    exact allocate_entries _ _

/-! ## Uniqueness -/

theorem Unique.sublist {l l' : List TitleEntry} (h : Unique l) (hs : List.Sublist l' l) :
    Unique l' :=
  List.Nodup.sublist (hs.map TitleEntry.pair) h

theorem unique_nil : Unique [] := List.nodup_nil

theorem saveTitle_cases (w : World) (now title url : String) (tabId : Int) :
    saveTitle w now title url tabId = w ∨
      (¬ Duplicate w.savedTitles title url ∧
        saveTitle w now title url tabId =
          { w with
            savedTitles := (TitleEntry.mk title url now tabId :: w.savedTitles).take 1000,
            store := w.store.write
              ((TitleEntry.mk title url now tabId :: w.savedTitles).take 1000) }) := by
  by_cases hs : skipped title url = true
  · exact Or.inl (saveTitle_of_skipped w now title url tabId hs)
  · by_cases hd : Duplicate w.savedTitles title url
    · exact Or.inl (saveTitle_of_duplicate w now title url tabId hd)
    · rw [Bool.not_eq_true, skipped_eq_false_iff] at hs
      exact Or.inr ⟨hd, saveTitle_fresh w now title url tabId hs hd⟩

theorem unique_prepend (l : List TitleEntry) (e : TitleEntry) (h : Unique l)
    (hnew : ¬ Duplicate l e.title e.url) : Unique ((e :: l).take 1000) := by
  have hcons : Unique (e :: l) := by
    unfold Unique
    rw [List.map_cons, List.nodup_cons]
    refine ⟨fun hmem => hnew ?_, h⟩
    obtain ⟨x, hx, hpair⟩ := List.mem_map.1 hmem
    simp only [TitleEntry.pair, Prod.mk.injEq] at hpair
    exact ⟨x, hx, hpair.1, hpair.2⟩
  exact hcons.sublist (List.take_sublist _ _)

theorem saveTitle_allUnique (w : World) (now title url : String) (tabId : Int)
    (h : AllUnique w) : AllUnique (saveTitle w now title url tabId) := by
  rcases saveTitle_cases w now title url tabId with h1 | ⟨hd, h1⟩
  · rw [h1]; exact h
  · rw [h1]
    have hu := unique_prepend w.savedTitles (TitleEntry.mk title url now tabId) h.1 hd
    exact ⟨hu, hu, h.2.2⟩

theorem deleteTitle_cases (w : World) (i : Nat) :
    deleteTitle w i = w ∨
      ∃ k, deleteTitle w i = loadTitles { w with
        allTitles := w.allTitles.eraseIdx k,
        store := w.store.write ((w.allTitles.eraseIdx k).map Obj.entry) } := by
  unfold deleteTitle
  cases findIndex (fun entry => strictEq entry w.filteredTitles[i]?) w.allTitles with
  | none => exact Or.inl rfl
  | some k => exact Or.inr ⟨k, rfl⟩

theorem loadTitles_entries (w : World) : (loadTitles w).allTitles.map Obj.entry = w.store.read :=
  allocate_entries _ _

theorem deleteTitle_allUnique (w : World) (i : Nat) (h : AllUnique w) :
    AllUnique (deleteTitle w i) := by
  rcases deleteTitle_cases w i with h1 | ⟨k, h1⟩
  · rw [h1]; exact h
  · have hu : Unique ((w.allTitles.eraseIdx k).map Obj.entry) :=
      h.2.2.sublist ((List.eraseIdx_sublist _ _).map Obj.entry)
    rw [h1]
    refine ⟨h.1, hu, ?_⟩
    rw [loadTitles_entries]
    exact hu

theorem perform_allUnique (lower : String → String) (w : World) (a : Action)
    (h : AllUnique w) : AllUnique (perform lower w a) := by
  cases a with
  | saveTitle now title url tabId => exact saveTitle_allUnique w now title url tabId h
  | startupLoad =>
    show AllUnique (startupLoad w)
    unfold startupLoad
    cases hv : w.store.value with
    | none => exact h
    | some v =>
      have hr : w.store.read = v := by simp [Store.read, hv]
      exact ⟨hr ▸ h.2.1, h.2.1, h.2.2⟩
  | loadTitles =>
    show AllUnique (loadTitles w)
    refine ⟨h.1, h.2.1, ?_⟩
    rw [loadTitles_entries]
    exact h.2.1
  | handleSearch value =>
    show AllUnique (handleSearch lower w value)
    unfold AllUnique
    rw [handleSearch_allTitles, handleSearch_store, handleSearch_savedTitles]
    exact h
  | deleteTitle index => exact deleteTitle_allUnique w index h
  | clearAllTitles confirmed =>
    show AllUnique (clearAllTitles w confirmed)
    cases confirmed with
    | false => exact h
    | true => exact ⟨h.1, unique_nil, unique_nil⟩

theorem run_allUnique (lower : String → String) (w : World) (actions : List Action)
    (h : AllUnique w) : AllUnique (run lower w actions) := by
  induction actions generalizing w with
  | nil => exact h
  | cons a as ih => exact ih (perform lower w a) (perform_allUnique lower w a h)

/-- C8: uniqueness of (title, url) is an invariant. A `saveTitle` call with any arguments
keeps the background collection unique; the panel's `deleteTitle` and `clearAllTitles` keep
the panel's collection unique; every event keeps all three copies (background,
persisted, panel) unique; hence they are unique in every state reachable from
the empty one. -/
theorem uniqueness_invariant :
    (∀ (w : World) (now title url : String) (tabId : Int),
      Unique w.savedTitles → Unique (saveTitle w now title url tabId).savedTitles) ∧
    (∀ (w : World) (i : Nat),
      Unique (w.allTitles.map Obj.entry) → Unique ((deleteTitle w i).allTitles.map Obj.entry)) ∧
    (∀ (w : World) (confirmed : Bool),
      Unique (w.allTitles.map Obj.entry) →
        Unique ((clearAllTitles w confirmed).allTitles.map Obj.entry)) ∧
    (∀ (lower : String → String) (w : World) (a : Action),
      AllUnique w → AllUnique (perform lower w a)) ∧
    (∀ (lower : String → String) (actions : List Action),
      AllUnique (run lower World.empty actions)) := by
  refine ⟨?_, ?_, ?_, perform_allUnique, fun lc actions =>
    run_allUnique lc World.empty actions ⟨unique_nil, unique_nil, unique_nil⟩⟩
  · intro w now title url tabId h
    rcases saveTitle_cases w now title url tabId with h1 | ⟨hd, h1⟩
    · rw [h1]; exact h
    · rw [h1]; exact unique_prepend w.savedTitles (TitleEntry.mk title url now tabId) h hd
  · intro w i h
    rcases deleteTitle_cases w i with h1 | ⟨k, h1⟩
    · rw [h1]; exact h
    · rw [h1, loadTitles_entries]
      exact h.sublist ((List.eraseIdx_sublist _ _).map Obj.entry)
  · intro w confirmed h
    cases confirmed with
    | false => exact h
    | true => exact unique_nil

/-! ## Rendering -/

theorem escapeChar_no_angle (c : Char) : '<' ∉ escapeChar c ∧ '>' ∉ escapeChar c := by
  unfold escapeChar
  split
  · decide
  · split
    · decide
    · split
      · decide
      · split
        · decide
        · rename_i h1 h2
          simp only [List.mem_singleton]
          exact ⟨fun h => h1 h.symm, fun h => h2 h.symm⟩

/-- The escaped text holds neither `<` nor `>`: it cannot open or close a tag. -/
theorem escapeHtml_no_angle (text : String) :
    '<' ∉ (escapeHtml text).data ∧ '>' ∉ (escapeHtml text).data := by
  unfold escapeHtml
  show '<' ∉ serializeText text.data ∧ '>' ∉ serializeText text.data
  induction text.data with
  | nil => simp [serializeText]
  | cons c cs ih =>
    have hc := escapeChar_no_angle c
    simp only [serializeText, List.mem_append, not_or]
    exact ⟨⟨hc.1, ih.1⟩, ⟨hc.2, ih.2⟩⟩

theorem serializeText_keeps_quote (cs : List Char) (h : '"' ∈ cs) :
    '"' ∈ serializeText cs := by
  induction cs with
  | nil => simp at h
  | cons c cs ih =>
    simp only [serializeText, List.mem_append]
    rcases List.mem_cons.1 h with rfl | h'
    · exact Or.inl (by decide)
    · exact Or.inr (ih h')

/-- The escaped text copies every double quote of the input. -/
theorem escapeHtml_keeps_quote (text : String) (h : '"' ∈ text.data) :
    '"' ∈ (escapeHtml text).data :=
  serializeText_keeps_quote text.data h

set_option maxRecDepth 100000 in
/-- C7: at a title holding a double quote the claim fails: `escapeHtml` returns the title
as it is, the first double quote ends the `title="..."` attribute value, the rest of
the title is read as a further attribute of the element, and the markup's
element and attribute structure differs from that of a plain entry. -/
theorem createTitleElement_quote_ends_attribute :
    escapeHtml quotedEntry.title = quotedEntry.title ∧
      (startTags (createTitleElement (fun _ => none) (fun t => t) quotedEntry 0))[1]? =
        some ⟨"div", [("class", "title-text"), ("title", "a"), ("onmouseover", "alert(1)")]⟩ ∧
      (startTags (createTitleElement (fun _ => none) (fun t => t) plainEntry 0))[1]? =
        some ⟨"div", [("class", "title-text"), ("title", "Hello")]⟩ ∧
      structureOf (createTitleElement (fun _ => none) (fun t => t) quotedEntry 0) ≠
        structureOf (createTitleElement (fun _ => none) (fun t => t) plainEntry 0) := by
  decide

/-! ## The two copies of the collection -/

/-- C9: the background script never reloads its copy. After the panel has
persisted the deletion of the one stored entry (by `deleteTitle` or by a confirmed
`clearAllTitles`), storage is empty; the next capture of another pair writes the
deleted entry back, and a capture of the deleted pair is dropped as a
duplicate, so the pair stays out of storage. -/
theorem deleted_entry_comes_back :
    (deleteTitle (loadTitles oneEntryWorld) 0).store.value = some [] ∧
      (saveTitle (deleteTitle (loadTitles oneEntryWorld) 0)
          "2024-05-01T10:05:00.000Z" "Other" "https://other.example/" 2).store.value =
        some [⟨"Other", "https://other.example/", "2024-05-01T10:05:00.000Z", 2⟩,
              ⟨"Example", "https://example.com/", "2024-05-01T10:00:00.000Z", 1⟩] ∧
      (saveTitle (deleteTitle (loadTitles oneEntryWorld) 0)
          "2024-05-01T10:05:00.000Z" "Example" "https://example.com/" 1).store.value = some [] ∧
      (clearAllTitles (loadTitles oneEntryWorld) true).store.value = some [] ∧
      (saveTitle (clearAllTitles (loadTitles oneEntryWorld) true)
          "2024-05-01T10:05:00.000Z" "Other" "https://other.example/" 2).store.value =
        some [⟨"Other", "https://other.example/", "2024-05-01T10:05:00.000Z", 2⟩,
              ⟨"Example", "https://example.com/", "2024-05-01T10:00:00.000Z", 1⟩] ∧
      (saveTitle (clearAllTitles (loadTitles oneEntryWorld) true)
          "2024-05-01T10:05:00.000Z" "Example" "https://example.com/" 1).store.value = some [] := by
  decide

/-! ## The update listener -/

theorem truthy?_iff (x : Option String) : truthy? x = true ↔ ∃ s, x = some s ∧ s ≠ "" := by
  cases x with
  | none => simp [truthy?]
  | some s => simp [truthy?, truthy_iff]

/-- C10, as stated, fails: the change descriptor reports a changed title, the
payload tab has an empty URL, and the listener schedules nothing, so the
re-read tab, whose pair would be captured, is never evaluated. -/
theorem onUpdated_blank_payload :
    onUpdated 1 ⟨some "Foo", none⟩ ⟨1, some "Foo", some ""⟩ = none ∧
      tabUpdated World.empty "2024-05-01T10:00:00.000Z" 1 ⟨some "Foo", none⟩
          ⟨1, some "Foo", some ""⟩ (some ⟨1, some "Foo", some "https://foo.example/"⟩) =
        World.empty ∧
      saveTitle World.empty "2024-05-01T10:00:00.000Z" "Foo" "https://foo.example/" 1 ≠
        World.empty := by
  decide

/-- C10, amended: when the change descriptor carries a non-empty title or URL and
the payload tab has a non-empty title and URL, the listener schedules one
callback with delay 500 for this tab; the callback calls `saveTitle` with the
re-read tab's title and URL (and the notification's tab id) when both are
non-empty, whatever the payload holds, and leaves the state as it is when the
re-read fails or yields an empty or missing title or URL. -/
theorem tabUpdated_captures_reread (w : World) (now : String) (tabId : Int)
    (changeInfo : ChangeInfo) (tab : Tab) (reread : Option Tab)
    (hchange : (∃ t, changeInfo.title = some t ∧ t ≠ "") ∨
      (∃ u, changeInfo.url = some u ∧ u ≠ ""))
    (hpayload : (∃ t, tab.title = some t ∧ t ≠ "") ∧ (∃ u, tab.url = some u ∧ u ≠ "")) :
    onUpdated tabId changeInfo tab = some ⟨500, tabId⟩ ∧
      (∀ (id : Int) (t u : String), reread = some ⟨id, some t, some u⟩ → t ≠ "" → u ≠ "" →
        tabUpdated w now tabId changeInfo tab reread = saveTitle w now t u tabId) ∧
      (∀ r, reread = some r → (truthy? r.title && truthy? r.url) = false →
        tabUpdated w now tabId changeInfo tab reread = w) ∧
      (reread = none → tabUpdated w now tabId changeInfo tab reread = w) := by
  have hgate : onUpdated tabId changeInfo tab = some ⟨500, tabId⟩ := by
    have h1 : (truthy? changeInfo.title || truthy? changeInfo.url) = true := by
      rw [Bool.or_eq_true, truthy?_iff, truthy?_iff]
      exact hchange
    have h2 := (truthy?_iff tab.title).2 hpayload.1
    have h3 := (truthy?_iff tab.url).2 hpayload.2
    simp [onUpdated, h1, h2, h3]
  refine ⟨hgate, ?_, ?_, ?_⟩
  · intro id t u hr ht hu
    subst hr
    simp [tabUpdated, hgate, onUpdatedTimeout, captureTab, (truthy_iff t).2 ht,
      (truthy_iff u).2 hu]
  · intro r hr hblank
    subst hr
    simp only [tabUpdated, hgate, onUpdatedTimeout, captureTab]
    rcases r with ⟨id, _ | t, _ | u⟩ <;> simp_all [truthy?]
  · intro hr
    subst hr
    simp [tabUpdated, hgate, onUpdatedTimeout]

/-! ## The claims at concrete inputs -/

theorem fullWorld_length : fullWorld.savedTitles.length = 1000 :=
  List.length_replicate 1000 plainEntry

/-- C1 below the cap and at the cap: a new pair on a one-entry collection, and
on a collection of 1000 entries. -/
theorem saveTitle_prepends_witness :
    ((saveTitle oneEntryWorld "2024-05-01T10:05:00.000Z" "Other" "https://other.example/" 2).savedTitles =
        TitleEntry.mk "Other" "https://other.example/" "2024-05-01T10:05:00.000Z" 2 ::
          oneEntryWorld.savedTitles ∧
      (saveTitle oneEntryWorld "2024-05-01T10:05:00.000Z" "Other"
        "https://other.example/" 2).savedTitles.length = oneEntryWorld.savedTitles.length + 1) ∧
    ((saveTitle fullWorld "2024-05-01T10:05:00.000Z" "Other" "https://other.example/" 2).savedTitles =
        TitleEntry.mk "Other" "https://other.example/" "2024-05-01T10:05:00.000Z" 2 ::
          fullWorld.savedTitles.dropLast ∧
      (saveTitle fullWorld "2024-05-01T10:05:00.000Z" "Other"
        "https://other.example/" 2).savedTitles.length = 1000) :=
  ⟨(saveTitle_prepends oneEntryWorld "2024-05-01T10:05:00.000Z" "Other" "https://other.example/" 2
      (by decide) ((skipped_eq_false_iff _ _).1 (by decide))
      ((find_none_iff _ _ _).1 (by decide))).2.2.1 (by decide),
   (saveTitle_prepends fullWorld "2024-05-01T10:05:00.000Z" "Other" "https://other.example/" 2
      (Nat.le_of_eq fullWorld_length) ((skipped_eq_false_iff _ _).1 (by decide))
      (by
        rintro ⟨e, he, ht, -⟩
        rw [show fullWorld.savedTitles = List.replicate 1000 plainEntry from rfl] at he
        rw [(List.mem_replicate.1 he).2] at ht
        exact absurd ht (by decide))).2.2.2.1 fullWorld_length⟩

/-- C2 at a placeholder title and at an internal URL. -/
theorem saveTitle_skips_witness :
    saveTitle oneEntryWorld "2024-05-01T10:05:00.000Z" "Loading..." "https://slow.com/" 2 =
        oneEntryWorld ∧
      saveTitle oneEntryWorld "2024-05-01T10:05:00.000Z" "Settings" "about:preferences" 2 =
        oneEntryWorld :=
  ⟨saveTitle_skips oneEntryWorld _ "Loading..." _ 2 (Or.inr (Or.inl rfl)),
   saveTitle_skips oneEntryWorld _ "Settings" "about:preferences" 2
    (Or.inr (Or.inr (Or.inr ⟨"about:", by decide, "preferences".data, rfl⟩)))⟩

/-- C3 at a second capture of the stored pair, from another tab at a later time. -/
theorem saveTitle_drops_duplicate_witness :
    saveTitle oneEntryWorld "2024-05-01T10:05:00.000Z" "Example" "https://example.com/" 9 =
      oneEntryWorld :=
  saveTitle_drops_duplicate oneEntryWorld "2024-05-01T10:05:00.000Z" "Example"
    "https://example.com/" 9 ((skipped_eq_false_iff _ _).1 (by decide))
    (Classical.not_not.1 (mt (find_none_iff _ _ _).2 (by decide)))

/-- C4 at two captures. -/
theorem captures_keep_newest_witness :
    (captures World.empty sampleCaptures).savedTitles.length = min sampleCaptures.length 1000 ∧
      (captures World.empty sampleCaptures).savedTitles.map TitleEntry.pair =
        ((sampleCaptures.map Capture.pair).drop
          (sampleCaptures.length - min sampleCaptures.length 1000)).reverse :=
  ⟨(captures_keep_newest World.empty sampleCaptures rfl
      (fun c hc => (skipped_eq_false_iff _ _).1 (by revert c; decide)) (by decide)).2.1,
   (captures_keep_newest World.empty sampleCaptures rfl
      (fun c hc => (skipped_eq_false_iff _ _).1 (by revert c; decide)) (by decide)).2.2.1⟩

/-- C5, amended, at ASCII terms in another case than the titles, at a term and a
title outside ASCII, and at the empty term. -/
theorem handleSearch_lowercase_filter_witness :
    (handleSearch toLowerCase (loadTitles storedWorld) "be").filteredTitles.map
        (fun o => o.entry.title) = ["Beta"] ∧
      (handleSearch toLowerCase (loadTitles storedWorld) "GAMMA").filteredTitles.map
        (fun o => o.entry.title) = ["Gamma"] ∧
      (handleSearch toLowerCase (loadTitles umlautWorld) "ä").filteredTitles.map
        (fun o => o.entry.title) = ["ÄPFEL"] ∧
      (handleSearch toLowerCase (loadTitles storedWorld) "").filteredTitles =
        (loadTitles storedWorld).allTitles ∧
      (∃ keep : Obj → Bool,
        (∀ o ∈ (loadTitles storedWorld).allTitles, keep o = true ↔
          (ContainsIgnoringCase o.entry.title "be" ∨ ContainsIgnoringCase o.entry.url "be")) ∧
        (handleSearch toLowerCase (loadTitles storedWorld) "be").filteredTitles =
          (loadTitles storedWorld).allTitles.filter keep) := by
  refine ⟨?_, ?_, ?_, (handleSearch_lowercase_filter.1 (loadTitles storedWorld) "").1 rfl,
    (handleSearch_lowercase_filter.1 (loadTitles storedWorld) "be").2.2.1 (by decide)
      (by decide)⟩
  · rw [(handleSearch_lowercase_filter.1 (loadTitles storedWorld) "be").2.1]
    decide!
  · rw [(handleSearch_lowercase_filter.1 (loadTitles storedWorld) "GAMMA").2.1]
    decide!
  · rw [(handleSearch_lowercase_filter.1 (loadTitles umlautWorld) "ä").2.1]
    decide!

/-- C6 at the view filtered by `Be`: deleting position 0 persists Alpha and Gamma;
position 1 is outside the view. -/
theorem deleteTitle_removes_shown_witness :
    (deleteTitle (handleSearch toLowerCase (loadTitles storedWorld) "Be") 0).store.value =
        some [⟨"Alpha", "https://x.org/1", "2024-05-01T10:00:02.000Z", 3⟩,
              ⟨"Gamma", "https://x.org/3", "2024-05-01T10:00:00.000Z", 1⟩] ∧
      deleteTitle (handleSearch toLowerCase (loadTitles storedWorld) "Be") 1 =
        handleSearch toLowerCase (loadTitles storedWorld) "Be" :=
  ⟨by decide!, (deleteTitle_removes_shown toLowerCase storedWorld "Be" 1).2 (by decide!)⟩

/-- C10, amended, at a title change whose re-read finds the loaded page. -/
theorem tabUpdated_captures_reread_witness :
    onUpdated 4 ⟨some "Loading...", none⟩ ⟨4, some "Loading...", some "https://example.com/"⟩ =
        some ⟨500, 4⟩ ∧
      tabUpdated World.empty "2024-05-01T10:00:00.000Z" 4 ⟨some "Loading...", none⟩
          ⟨4, some "Loading...", some "https://example.com/"⟩
          (some ⟨4, some "Example", some "https://example.com/"⟩) =
        saveTitle World.empty "2024-05-01T10:00:00.000Z" "Example" "https://example.com/" 4 :=
  ⟨(tabUpdated_captures_reread World.empty "2024-05-01T10:00:00.000Z" 4
      ⟨some "Loading...", none⟩ ⟨4, some "Loading...", some "https://example.com/"⟩
      (some ⟨4, some "Example", some "https://example.com/"⟩)
      (Or.inl ⟨"Loading...", rfl, by decide⟩)
      ⟨⟨"Loading...", rfl, by decide⟩, ⟨"https://example.com/", rfl, by decide⟩⟩).1,
   (tabUpdated_captures_reread World.empty "2024-05-01T10:00:00.000Z" 4
      ⟨some "Loading...", none⟩ ⟨4, some "Loading...", some "https://example.com/"⟩
      (some ⟨4, some "Example", some "https://example.com/"⟩)
      (Or.inl ⟨"Loading...", rfl, by decide⟩)
      ⟨⟨"Loading...", rfl, by decide⟩, ⟨"https://example.com/", rfl, by decide⟩⟩).2.1
      4 "Example" "https://example.com/" rfl (by decide) (by decide)⟩

end TitleExtractor
